import Mathlib

/-!
# Kong provider: consumer and JWT credential resources

A shallow embedding of `kong/resource_kong_consumer.go` and
`kong/resource_kong_consumer_credential_jwt.go`, followed by the properties
of the four lifecycle functions of each resource.

Conventions of the embedding.

* `*schema.ResourceData` is a value `ResourceData` (identity plus attribute
  map); a Go function that mutates `d` and returns `error` becomes a function
  returning an `Outcome`: the `ResourceData` after the call, the returned
  error (`none` for `nil`) and the request that was handed to the client.
* `meta.(*sling.Sling)` is a function from the composed request to the answer
  of the remote side.
* A JSON object is the list of its string-valued members in document order.
  A member the decoder passes over (a `null`) is simply not listed, and a body
  the decoder rejects counts as a failed call, since the client then returns
  an error.
* Decoding into a record follows `encoding/json`: members are applied to the
  target one after the other; a member goes to the field whose tag is its
  name, or else to the first field whose tag equals its name up to case
  folding; a field without a member keeps the value the target had, and a
  field tagged `-` is never touched.
-/

namespace Kong

/-! ## JSON objects -/

/-- The members of a JSON object, in document order. -/
abbrev JSONObject := List (String × String)

/-- Case folding of one character of a member name, as a code point: a small
ASCII letter folds to its capital, the long s (U+017F) to `S`, the Kelvin sign
(U+212A) to `K`; these are all the characters that fold to an ASCII
character, every other character stands for itself. -/
def foldRune (c : Char) : Nat :=
  if 97 ≤ c.toNat ∧ c.toNat ≤ 122 then c.toNat - 32
  else if c.toNat = 0x17F then 83
  else if c.toNat = 0x212A then 75
  else c.toNat

/-- Folded form of a name. -/
def foldName (name : String) : List Nat :=
  name.data.map foldRune

/-- Case-insensitive comparison of a field tag with a member name, as the JSON
decoder does it for tags written in ASCII. -/
def equalFold (tag key : String) : Bool :=
  decide (foldName tag = foldName key)

/-- Field the decoder binds a member named `key` to, among the tags `fields`
of a record in declaration order: the tag equal to `key` when there is one,
otherwise the first tag that equals `key` up to case folding. -/
def findField (fields : List String) (key : String) : Option String :=
  match fields.find? (fun f => decide (f = key)) with
  | some f => some f
  | none => fields.find? (fun f => equalFold f key)

/-- Value a JSON object holds for `tag`: the value of the last member whose
name is `tag` up to case folding. -/
def JSONObject.get (b : JSONObject) (tag : String) : Option String :=
  b.foldl (fun acc m => if equalFold tag m.1 then some m.2 else acc) none

/-- Names of the members of a JSON object. -/
def JSONObject.keys (b : JSONObject) : List String :=
  b.map Prod.fst

/-- Encoding of one string field tagged `omitempty`: the member is left out
when the value is the empty string. -/
def omitempty (tag value : String) : JSONObject :=
  if value = "" then [] else [(tag, value)]

/-! ## The declarative state: `schema.ResourceData` -/

/-- The part of `schema.ResourceData` the resources use: the identity and the
string attributes, an attribute that was never set reading as `""`. -/
structure ResourceData where
  id : String
  attrs : String → String

/-- Accessor `d.Id()`. -/
def ResourceData.Id (d : ResourceData) : String :=
  d.id

/-- Mutator `d.SetId(v)`. -/
def ResourceData.SetId (d : ResourceData) (v : String) : ResourceData :=
  { d with id := v }

/-- Accessor `d.Get(key).(string)`. -/
def ResourceData.Get (d : ResourceData) (key : String) : String :=
  d.attrs key

/-- Mutator `d.Set(key, value)`. -/
def ResourceData.Set (d : ResourceData) (key value : String) : ResourceData :=
  { d with attrs := fun k => if k = key then value else d.attrs k }

/-! ## The client: `sling.Sling` -/

/-- A composed request: the verb, the path arguments in the order they are
given to the builder, and the JSON body set with `BodyJSON`, if any. -/
structure Request where
  method : String
  path : List String
  body : Option JSONObject
deriving DecidableEq

/-- What comes back from the remote side: the call failed (`error != nil`:
network failure, or a body that could not be decoded), or a response with a
status code and a JSON body was received. -/
inductive Response where
  | failure
  | received (StatusCode : Nat) (body : JSONObject)
deriving DecidableEq

/-- The client handle passed as `meta`. -/
abbrev Sling := Request → Response

/-- Builder call `Receive(successV, failureV)`: sends the request; a failed call
gives `none` (the Go `error`). Otherwise the result is the status code and the
two targets: nothing is decoded on 204, a 2xx body is decoded into `successV`
with `decode`, any other body into the map `failureV`. -/
def Receive {α : Type} (meta : Sling) (req : Request)
    (decode : JSONObject → α → α) (successV : α) (failureV : JSONObject) :
    Option (Nat × α × JSONObject) :=
  match meta req with
  | Response.failure => none
  | Response.received code body =>
    if code = 204 then some (code, successV, failureV)
    else if 200 ≤ code ∧ code ≤ 299 then some (code, decode body successV, failureV)
    else some (code, successV, failureV ++ body)

/-- Decoder for a `nil` success target: nothing is decoded. -/
def decodeNil (_ : JSONObject) (u : Unit) : Unit :=
  u

/-! ## Errors -/

/-- The `error` values the resources return. `Errorf` is `fmt.Errorf` with a
constant message. `ErrorFromResponse` is the helper of the same name, which
lives in another file of the package: its result is represented by the two
arguments it is called with, the status code of the response and the decoded
error body. -/
inductive KongError where
  | Errorf (message : String)
  | ErrorFromResponse (StatusCode : Nat) (errorResponse : JSONObject)
deriving DecidableEq

/-- Result of one lifecycle function: the state after the call, the returned
error, and the request that was sent. -/
structure Outcome where
  d : ResourceData
  error : Option KongError
  request : Request

/-- The four lifecycle functions registered by a `schema.Resource`. -/
structure Resource where
  Create : ResourceData → Sling → Outcome
  Read : ResourceData → Sling → Outcome
  Update : ResourceData → Sling → Outcome
  Delete : ResourceData → Sling → Outcome

/-! ## Consumer -/

/-- Wire record `Consumer`; a field of a fresh record is `""`. -/
structure Consumer where
  ID : String := ""
  Username : String := ""
  CustomID : String := ""
deriving DecidableEq

/-- JSON encoding of a `Consumer`, from its field tags
(`id`, `username`, `custom_id`, all `omitempty`). -/
def Consumer.marshal (c : Consumer) : JSONObject :=
  omitempty "id" c.ID ++ omitempty "username" c.Username ++ omitempty "custom_id" c.CustomID

/-- Tags of the fields of `Consumer`, in declaration order. -/
def Consumer.fields : List String :=
  ["id", "username", "custom_id"]

/-- Decoding of one member into a `Consumer`: a member that `findField` binds
to a field overwrites that field, any other member is skipped. -/
def Consumer.setMember (c : Consumer) (m : String × String) : Consumer :=
  match findField Consumer.fields m.1 with
  | none => c
  | some f =>
    if f = "id" then { c with ID := m.2 }
    else if f = "username" then { c with Username := m.2 }
    else if f = "custom_id" then { c with CustomID := m.2 }
    else c

/-- JSON decoding of an object into an existing `Consumer`: the members are
applied one after the other; a field without a member keeps its value. -/
def Consumer.unmarshal (body : JSONObject) (c : Consumer) : Consumer :=
  body.foldl Consumer.setMember c

/-- Source function `getConsumerFromResourceData`. -/
def getConsumerFromResourceData (d : ResourceData) : Consumer :=
  { ID := d.Id
    Username := d.Get "username"
    CustomID := d.Get "custom_id" }

/-- Source function `setConsumerToResourceData`. -/
def setConsumerToResourceData (d : ResourceData) (consumer : Consumer) : ResourceData :=
  ((d.SetId consumer.ID).Set "username" consumer.Username).Set "custom_id" consumer.CustomID

/-- Source function `resourceKongConsumerCreate`. -/
def resourceKongConsumerCreate (d : ResourceData) (meta : Sling) : Outcome :=
  let consumer := getConsumerFromResourceData d
  let createdConsumer : Consumer := {}
  let errorResponse : JSONObject := []
  let req : Request := ⟨"POST", ["consumers/"], some consumer.marshal⟩
  match Receive meta req Consumer.unmarshal createdConsumer errorResponse with
  | none => ⟨d, some (.Errorf "Error while creating consumer."), req⟩
  | some (StatusCode, createdConsumer, errorResponse) =>
    if StatusCode = 409 then
      ⟨d, some (.Errorf "409 Conflict - use terraform import to manage this consumer."), req⟩
    else if StatusCode ≠ 201 then
      ⟨d, some (.ErrorFromResponse StatusCode errorResponse), req⟩
    else
      ⟨setConsumerToResourceData d createdConsumer, none, req⟩

/-- Source function `resourceKongConsumerRead`. -/
def resourceKongConsumerRead (d : ResourceData) (meta : Sling) : Outcome :=
  let id := d.Id
  let consumer : Consumer := {}
  let errorResponse : JSONObject := []
  let req : Request := ⟨"GET", ["consumers/", id], none⟩
  match Receive meta req Consumer.unmarshal consumer errorResponse with
  | none => ⟨d, some (.Errorf "Error while updating consumer."), req⟩
  | some (StatusCode, consumer, errorResponse) =>
    if StatusCode = 404 then
      ⟨d.SetId "", none, req⟩
    else if StatusCode ≠ 200 then
      ⟨d, some (.ErrorFromResponse StatusCode errorResponse), req⟩
    else
      ⟨setConsumerToResourceData d consumer, none, req⟩

/-- Source function `resourceKongConsumerUpdate`. -/
def resourceKongConsumerUpdate (d : ResourceData) (meta : Sling) : Outcome :=
  let consumer := getConsumerFromResourceData d
  let updatedConsumer : Consumer := {}
  let errorResponse : JSONObject := []
  let req : Request := ⟨"PATCH", ["consumers/", consumer.ID], some consumer.marshal⟩
  match Receive meta req Consumer.unmarshal updatedConsumer errorResponse with
  | none => ⟨d, some (.Errorf "Error while updating consumer."), req⟩
  | some (StatusCode, updatedConsumer, errorResponse) =>
    if StatusCode ≠ 200 then
      ⟨d, some (.ErrorFromResponse StatusCode errorResponse), req⟩
    else
      ⟨setConsumerToResourceData d updatedConsumer, none, req⟩

/-- Source function `resourceKongConsumerDelete`. -/
def resourceKongConsumerDelete (d : ResourceData) (meta : Sling) : Outcome :=
  let id := d.Id
  let errorResponse : JSONObject := []
  let req : Request := ⟨"DELETE", ["consumers/", id], none⟩
  match Receive meta req decodeNil () errorResponse with
  | none => ⟨d, some (.Errorf "Error while deleting consumer."), req⟩
  | some (StatusCode, _, errorResponse) =>
    if StatusCode ≠ 204 then
      ⟨d, some (.ErrorFromResponse StatusCode errorResponse), req⟩
    else
      ⟨d, none, req⟩

/-- Source function `resourceKongConsumer`: the registered lifecycle functions. -/
def resourceKongConsumer : Resource :=
  { Create := resourceKongConsumerCreate
    Read := resourceKongConsumerRead
    Update := resourceKongConsumerUpdate
    Delete := resourceKongConsumerDelete }

/-! ## JWT credential -/

/-- Wire record `JWTCredential`. -/
structure JWTCredential where
  ID : String := ""
  Key : String := ""
  Algorithm : String := ""
  RSAPublicKey : String := ""
  Secret : String := ""
  Consumer : String := ""
deriving DecidableEq

/-- JSON encoding of a `JWTCredential`, from its field tags (`id`, `key`,
`algorithm`, `rsa_public_key`, `secret`, all `omitempty`); the field
`Consumer` is tagged `-` and is not encoded. -/
def JWTCredential.marshal (c : JWTCredential) : JSONObject :=
  omitempty "id" c.ID ++ omitempty "key" c.Key ++ omitempty "algorithm" c.Algorithm
    ++ omitempty "rsa_public_key" c.RSAPublicKey ++ omitempty "secret" c.Secret

/-- Tags of the fields of `JWTCredential` that take part in JSON, in
declaration order; `Consumer`, tagged `-`, is not among them. -/
def JWTCredential.fields : List String :=
  ["id", "key", "algorithm", "rsa_public_key", "secret"]

/-- Decoding of one member into a `JWTCredential`; no member reaches the field
`Consumer`, which is tagged `-`. -/
def JWTCredential.setMember (c : JWTCredential) (m : String × String) : JWTCredential :=
  match findField JWTCredential.fields m.1 with
  | none => c
  | some f =>
    if f = "id" then { c with ID := m.2 }
    else if f = "key" then { c with Key := m.2 }
    else if f = "algorithm" then { c with Algorithm := m.2 }
    else if f = "rsa_public_key" then { c with RSAPublicKey := m.2 }
    else if f = "secret" then { c with Secret := m.2 }
    else c

/-- JSON decoding of an object into an existing `JWTCredential`. -/
def JWTCredential.unmarshal (body : JSONObject) (c : JWTCredential) : JWTCredential :=
  body.foldl JWTCredential.setMember c

/-- Source function `getJWTCredentialFromResourceData`. -/
def getJWTCredentialFromResourceData (d : ResourceData) : JWTCredential :=
  { ID := d.Id
    Key := d.Get "key"
    Algorithm := d.Get "algorithm"
    RSAPublicKey := d.Get "rsa_public_key"
    Secret := d.Get "secret"
    Consumer := d.Get "consumer" }

/-- Source function `setJWTCredentialToResourceData`. -/
def setJWTCredentialToResourceData (d : ResourceData) (jwtCredential : JWTCredential) :
    ResourceData :=
  (((((d.SetId jwtCredential.ID).Set "key" jwtCredential.Key).Set "algorithm"
    jwtCredential.Algorithm).Set "rsa_public_key" jwtCredential.RSAPublicKey).Set "secret"
    jwtCredential.Secret).Set "consumer" jwtCredential.Consumer

/-- Source function `resourceKongJWTCredentialCreate`. -/
def resourceKongJWTCredentialCreate (d : ResourceData) (meta : Sling) : Outcome :=
  let jwtCredential := getJWTCredentialFromResourceData d
  let createdJWTCredential := getJWTCredentialFromResourceData d
  let errorResponse : JSONObject := []
  let req : Request :=
    ⟨"POST", ["consumers/", jwtCredential.Consumer ++ "/", "jwt/"], some jwtCredential.marshal⟩
  match Receive meta req JWTCredential.unmarshal createdJWTCredential errorResponse with
  | none => ⟨d, some (.Errorf "Error while creating jwtCredential."), req⟩
  | some (StatusCode, createdJWTCredential, errorResponse) =>
    if StatusCode ≠ 201 then
      ⟨d, some (.ErrorFromResponse StatusCode errorResponse), req⟩
    else
      ⟨setJWTCredentialToResourceData d createdJWTCredential, none, req⟩

/-- Source function `resourceKongJWTCredentialRead`. -/
def resourceKongJWTCredentialRead (d : ResourceData) (meta : Sling) : Outcome :=
  let jwtCredential := getJWTCredentialFromResourceData d
  let errorResponse : JSONObject := []
  let req : Request :=
    ⟨"GET", ["consumers/", jwtCredential.Consumer ++ "/", "jwt/", jwtCredential.ID], none⟩
  match Receive meta req JWTCredential.unmarshal jwtCredential errorResponse with
  | none => ⟨d, some (.Errorf "Error while updating jwtCredential."), req⟩
  | some (StatusCode, jwtCredential, errorResponse) =>
    if StatusCode = 404 then
      ⟨d.SetId "", none, req⟩
    else if StatusCode ≠ 200 then
      ⟨d, some (.ErrorFromResponse StatusCode errorResponse), req⟩
    else
      ⟨setJWTCredentialToResourceData d jwtCredential, none, req⟩

/-- Source function `resourceKongJWTCredentialUpdate`. -/
def resourceKongJWTCredentialUpdate (d : ResourceData) (meta : Sling) : Outcome :=
  let jwtCredential := getJWTCredentialFromResourceData d
  let updatedJWTCredential := getJWTCredentialFromResourceData d
  let errorResponse : JSONObject := []
  let req : Request :=
    ⟨"PATCH", ["consumers/", jwtCredential.Consumer ++ "/", "jwt/", jwtCredential.ID],
      some jwtCredential.marshal⟩
  match Receive meta req JWTCredential.unmarshal updatedJWTCredential errorResponse with
  | none => ⟨d, some (.Errorf "Error while updating jwtCredential."), req⟩
  | some (StatusCode, updatedJWTCredential, errorResponse) =>
    if StatusCode ≠ 200 then
      ⟨d, some (.ErrorFromResponse StatusCode errorResponse), req⟩
    else
      ⟨setJWTCredentialToResourceData d updatedJWTCredential, none, req⟩

/-- Source function `resourceKongJWTCredentialDelete`. -/
def resourceKongJWTCredentialDelete (d : ResourceData) (meta : Sling) : Outcome :=
  let jwtCredential := getJWTCredentialFromResourceData d
  let errorResponse : JSONObject := []
  let req : Request :=
    ⟨"DELETE", ["consumers/", jwtCredential.Consumer ++ "/", "jwt/", jwtCredential.ID], none⟩
  match Receive meta req decodeNil () errorResponse with
  | none => ⟨d, some (.Errorf "Error while deleting jwtCredential."), req⟩
  | some (StatusCode, _, errorResponse) =>
    if StatusCode ≠ 204 then
      ⟨d, some (.ErrorFromResponse StatusCode errorResponse), req⟩
    else
      ⟨d, none, req⟩

/-- Source function `resourceKongJWTCredential`: the registered lifecycle functions. -/
def resourceKongJWTCredential : Resource :=
  { Create := resourceKongJWTCredentialCreate
    Read := resourceKongJWTCredentialRead
    Update := resourceKongJWTCredentialUpdate
    Delete := resourceKongJWTCredentialDelete }

/-! ## Fixtures -/

/-- A client whose every call is answered by the same response. -/
def stub (r : Response) : Sling :=
  fun _ => r

/-- Attribute `key` in a list of attribute settings: the last setting of that
very key, `""` when there is none. -/
def attrOf (attrs : List (String × String)) (key : String) : String :=
  attrs.foldl (fun acc m => if m.1 = key then m.2 else acc) ""

/-- A state with empty identity and the given attributes. -/
def declared (attrs : List (String × String)) : ResourceData :=
  { id := ""
    attrs := attrOf attrs }

/-- A state with the given identity and attributes. -/
def tracked (id : String) (attrs : List (String × String)) : ResourceData :=
  { id := id
    attrs := attrOf attrs }

/-! ## Decoding lemmas -/

theorem JSONObject.get_concat (l : JSONObject) (m : String × String) (tag : String) :
    JSONObject.get (l ++ [m]) tag
      = if equalFold tag m.1 then some m.2 else JSONObject.get l tag := by
  simp [JSONObject.get, List.foldl_append]

/-- A member name cannot match two tags whose folded forms differ. -/
theorem equalFold_disjoint (a b key : String) (h : foldName a ≠ foldName b)
    (ha : equalFold a key = true) : equalFold b key = false := by
  simp only [equalFold, decide_eq_true_eq, decide_eq_false_iff_not] at *
  intro hb
  exact h (ha.trans hb.symm)

/-- Field selection among the tags of `Consumer`: the tags have distinct folded
forms, so the selected field is the one that matches up to case folding. -/
theorem findField_consumer (key : String) :
    findField Consumer.fields key =
      if equalFold "id" key then some "id"
      else if equalFold "username" key then some "username"
      else if equalFold "custom_id" key then some "custom_id"
      else none := by
  by_cases h1 : "id" = key
  · subst h1; decide
  by_cases h2 : "username" = key
  · subst h2; decide
  by_cases h3 : "custom_id" = key
  · subst h3; decide
  simp only [findField, Consumer.fields, List.find?_cons, List.find?_nil, h1, h2, h3,
    decide_False]
  split_ifs <;> simp_all

/-- Field selection among the tags of `JWTCredential`. -/
theorem findField_jwtCredential (key : String) :
    findField JWTCredential.fields key =
      if equalFold "id" key then some "id"
      else if equalFold "key" key then some "key"
      else if equalFold "algorithm" key then some "algorithm"
      else if equalFold "rsa_public_key" key then some "rsa_public_key"
      else if equalFold "secret" key then some "secret"
      else none := by
  by_cases h1 : "id" = key
  · subst h1; decide
  by_cases h2 : "key" = key
  · subst h2; decide
  by_cases h3 : "algorithm" = key
  · subst h3; decide
  by_cases h4 : "rsa_public_key" = key
  · subst h4; decide
  by_cases h5 : "secret" = key
  · subst h5; decide
  simp only [findField, JWTCredential.fields, List.find?_cons, List.find?_nil, h1, h2, h3,
    h4, h5, decide_False]
  split_ifs <;> simp_all

/-- One member decoded into a `Consumer`, field by field. -/
theorem Consumer.setMember_fields (c : Consumer) (m : String × String) :
    c.setMember m =
      { ID := if equalFold "id" m.1 then m.2 else c.ID
        Username := if equalFold "username" m.1 then m.2 else c.Username
        CustomID := if equalFold "custom_id" m.1 then m.2 else c.CustomID } := by
  unfold Consumer.setMember
  rw [findField_consumer]
  by_cases h1 : equalFold "id" m.1 = true
  · have a := equalFold_disjoint "id" "username" m.1 (by decide) h1
    have b := equalFold_disjoint "id" "custom_id" m.1 (by decide) h1
    simp [h1, a, b]
  by_cases h2 : equalFold "username" m.1 = true
  · have b := equalFold_disjoint "username" "custom_id" m.1 (by decide) h2
    simp [h1, h2, b]
  by_cases h3 : equalFold "custom_id" m.1 = true
  · simp [h1, h2, h3]
  · simp [h1, h2, h3]

/-- One member decoded into a `JWTCredential`, field by field. -/
theorem JWTCredential.setMember_eq (c : JWTCredential) (m : String × String) :
    c.setMember m =
      { ID := if equalFold "id" m.1 then m.2 else c.ID
        Key := if equalFold "key" m.1 then m.2 else c.Key
        Algorithm := if equalFold "algorithm" m.1 then m.2 else c.Algorithm
        RSAPublicKey := if equalFold "rsa_public_key" m.1 then m.2 else c.RSAPublicKey
        Secret := if equalFold "secret" m.1 then m.2 else c.Secret
        Consumer := c.Consumer } := by
  unfold JWTCredential.setMember
  rw [findField_jwtCredential]
  by_cases h1 : equalFold "id" m.1 = true
  · have a := equalFold_disjoint "id" "key" m.1 (by decide) h1
    have b := equalFold_disjoint "id" "algorithm" m.1 (by decide) h1
    have e := equalFold_disjoint "id" "rsa_public_key" m.1 (by decide) h1
    have f := equalFold_disjoint "id" "secret" m.1 (by decide) h1
    simp [h1, a, b, e, f]
  by_cases h2 : equalFold "key" m.1 = true
  · have b := equalFold_disjoint "key" "algorithm" m.1 (by decide) h2
    have e := equalFold_disjoint "key" "rsa_public_key" m.1 (by decide) h2
    have f := equalFold_disjoint "key" "secret" m.1 (by decide) h2
    simp [h1, h2, b, e, f]
  by_cases h3 : equalFold "algorithm" m.1 = true
  · have e := equalFold_disjoint "algorithm" "rsa_public_key" m.1 (by decide) h3
    have f := equalFold_disjoint "algorithm" "secret" m.1 (by decide) h3
    simp [h1, h2, h3, e, f]
  by_cases h4 : equalFold "rsa_public_key" m.1 = true
  · have f := equalFold_disjoint "rsa_public_key" "secret" m.1 (by decide) h4
    simp [h1, h2, h3, h4, f]
  by_cases h5 : equalFold "secret" m.1 = true
  · simp [h1, h2, h3, h4, h5]
  · simp [h1, h2, h3, h4, h5]

theorem Consumer.unmarshal_snoc (l : JSONObject) (m : String × String) (c : Consumer) :
    Consumer.unmarshal (l ++ [m]) c = (Consumer.unmarshal l c).setMember m := by
  simp [Consumer.unmarshal, List.foldl_append]

theorem JWTCredential.unmarshal_concat (l : JSONObject) (m : String × String)
    (c : JWTCredential) :
    JWTCredential.unmarshal (l ++ [m]) c = (JWTCredential.unmarshal l c).setMember m := by
  simp [JWTCredential.unmarshal, List.foldl_append]

theorem Consumer.unmarshal_id_member (body : JSONObject) (c : Consumer) :
    (Consumer.unmarshal body c).ID
      = (body.get "id").getD c.ID := by
  induction body using List.reverseRecOn with
  | nil => rfl
  | append_singleton l m ih =>
    rw [Consumer.unmarshal_snoc, JSONObject.get_concat, Consumer.setMember_fields]
    split_ifs <;> simp_all

theorem Consumer.unmarshal_Username (body : JSONObject) (c : Consumer) :
    (Consumer.unmarshal body c).Username
      = (body.get "username").getD c.Username := by
  induction body using List.reverseRecOn with
  | nil => rfl
  | append_singleton l m ih =>
    rw [Consumer.unmarshal_snoc, JSONObject.get_concat, Consumer.setMember_fields]
    split_ifs <;> simp_all

theorem Consumer.unmarshal_CustomID (body : JSONObject) (c : Consumer) :
    (Consumer.unmarshal body c).CustomID
      = (body.get "custom_id").getD c.CustomID := by
  induction body using List.reverseRecOn with
  | nil => rfl
  | append_singleton l m ih =>
    rw [Consumer.unmarshal_snoc, JSONObject.get_concat, Consumer.setMember_fields]
    split_ifs <;> simp_all

theorem JWTCredential.unmarshal_ID (body : JSONObject) (c : JWTCredential) :
    (JWTCredential.unmarshal body c).ID
      = (body.get "id").getD c.ID := by
  induction body using List.reverseRecOn with
  | nil => rfl
  | append_singleton l m ih =>
    rw [JWTCredential.unmarshal_concat, JSONObject.get_concat, JWTCredential.setMember_eq]
    split_ifs <;> simp_all

theorem JWTCredential.unmarshal_Key (body : JSONObject) (c : JWTCredential) :
    (JWTCredential.unmarshal body c).Key
      = (body.get "key").getD c.Key := by
  induction body using List.reverseRecOn with
  | nil => rfl
  | append_singleton l m ih =>
    rw [JWTCredential.unmarshal_concat, JSONObject.get_concat, JWTCredential.setMember_eq]
    split_ifs <;> simp_all

theorem JWTCredential.unmarshal_Algorithm (body : JSONObject) (c : JWTCredential) :
    (JWTCredential.unmarshal body c).Algorithm
      = (body.get "algorithm").getD c.Algorithm := by
  induction body using List.reverseRecOn with
  | nil => rfl
  | append_singleton l m ih =>
    rw [JWTCredential.unmarshal_concat, JSONObject.get_concat, JWTCredential.setMember_eq]
    split_ifs <;> simp_all

theorem JWTCredential.unmarshal_RSAPublicKey (body : JSONObject) (c : JWTCredential) :
    (JWTCredential.unmarshal body c).RSAPublicKey
      = (body.get "rsa_public_key").getD c.RSAPublicKey := by
  induction body using List.reverseRecOn with
  | nil => rfl
  | append_singleton l m ih =>
    rw [JWTCredential.unmarshal_concat, JSONObject.get_concat, JWTCredential.setMember_eq]
    split_ifs <;> simp_all

theorem JWTCredential.unmarshal_Secret (body : JSONObject) (c : JWTCredential) :
    (JWTCredential.unmarshal body c).Secret
      = (body.get "secret").getD c.Secret := by
  induction body using List.reverseRecOn with
  | nil => rfl
  | append_singleton l m ih =>
    rw [JWTCredential.unmarshal_concat, JSONObject.get_concat, JWTCredential.setMember_eq]
    split_ifs <;> simp_all

theorem JWTCredential.unmarshal_Consumer (body : JSONObject) (c : JWTCredential) :
    (JWTCredential.unmarshal body c).Consumer = c.Consumer := by
  induction body using List.reverseRecOn with
  | nil => rfl
  | append_singleton l m ih =>
    rw [JWTCredential.unmarshal_concat, JWTCredential.setMember_eq]
    exact ih

/-- The decoder on member names in other letter cases: capitals reach the
fields, of two members for the same field the later one counts, a name with
another character in place of the underscore reaches no field, no spelling
of `consumer` reaches the owner reference, and the Kelvin sign and the long s
count as `k` and `s`. -/
theorem unmarshal_letter_case_evaluated :
    Consumer.unmarshal [("ID", "u1"), ("Username", "bob"), ("CUSTOM_ID", "z")] {}
      = { ID := "u1", Username := "bob", CustomID := "z" } ∧
    Consumer.unmarshal [("id", "a"), ("ID", "b")] {} = { ID := "b" } ∧
    Consumer.unmarshal [("ID", "a"), ("id", "b")] {} = { ID := "b" } ∧
    Consumer.unmarshal [("custom-id", "z"), ("name", "bob")] {} = {} ∧
    JWTCredential.unmarshal [("Id", "j2"), ("KEY", "k2"), ("Secret", "s2"), ("Consumer", "c2")]
        { ID := "j1", Key := "k1", Consumer := "c1" }
      = { ID := "j2", Key := "k2", Secret := "s2", Consumer := "c1" } ∧
    equalFold "key" (String.mk [Char.ofNat 0x212A, 'e', 'y']) = true ∧
    equalFold "secret" (String.mk [Char.ofNat 0x17F, 'E', 'C', 'R', 'E', 'T']) = true := by
  decide

/-- Decoding the same body a second time changes nothing. -/
theorem JWTCredential.unmarshal_idem (body : JSONObject) (c : JWTCredential) :
    JWTCredential.unmarshal body (JWTCredential.unmarshal body c)
      = JWTCredential.unmarshal body c := by
  have key : ∀ a b : JWTCredential, a.ID = b.ID → a.Key = b.Key → a.Algorithm = b.Algorithm →
      a.RSAPublicKey = b.RSAPublicKey → a.Secret = b.Secret → a.Consumer = b.Consumer →
      a = b := by
    intro a b h1 h2 h3 h4 h5 h6
    cases a; cases b; simp_all
  apply key
  · rw [JWTCredential.unmarshal_ID, JWTCredential.unmarshal_ID]; cases body.get "id" <;> rfl
  · rw [JWTCredential.unmarshal_Key, JWTCredential.unmarshal_Key]; cases body.get "key" <;> rfl
  · rw [JWTCredential.unmarshal_Algorithm, JWTCredential.unmarshal_Algorithm]
    cases body.get "algorithm" <;> rfl
  · rw [JWTCredential.unmarshal_RSAPublicKey, JWTCredential.unmarshal_RSAPublicKey]
    cases body.get "rsa_public_key" <;> rfl
  · rw [JWTCredential.unmarshal_Secret, JWTCredential.unmarshal_Secret]
    cases body.get "secret" <;> rfl
  · rw [JWTCredential.unmarshal_Consumer, JWTCredential.unmarshal_Consumer]

/-! ## Reading back what was written -/

theorem setConsumerToResourceData_Id (d : ResourceData) (c : Consumer) :
    (setConsumerToResourceData d c).Id = c.ID := rfl

theorem setConsumerToResourceData_username (d : ResourceData) (c : Consumer) :
    (setConsumerToResourceData d c).Get "username" = c.Username := by
  simp [setConsumerToResourceData, ResourceData.Get, ResourceData.Set]

theorem setConsumerToResourceData_custom_id (d : ResourceData) (c : Consumer) :
    (setConsumerToResourceData d c).Get "custom_id" = c.CustomID := by
  simp [setConsumerToResourceData, ResourceData.Get, ResourceData.Set]

theorem setConsumerToResourceData_twice (d : ResourceData) (c : Consumer) :
    setConsumerToResourceData (setConsumerToResourceData d c) c
      = setConsumerToResourceData d c := by
  simp only [setConsumerToResourceData, ResourceData.Set, ResourceData.SetId]
  congr 1
  funext k
  split_ifs <;> rfl

theorem setJWTCredentialToResourceData_Id (d : ResourceData) (c : JWTCredential) :
    (setJWTCredentialToResourceData d c).Id = c.ID := rfl

theorem getJWTCredentialFromResourceData_set (d : ResourceData) (c : JWTCredential) :
    getJWTCredentialFromResourceData (setJWTCredentialToResourceData d c) = c := by
  cases c
  simp [getJWTCredentialFromResourceData, setJWTCredentialToResourceData, ResourceData.Get,
    ResourceData.Set, ResourceData.SetId, ResourceData.Id]

theorem setJWTCredentialToResourceData_twice (d : ResourceData) (c : JWTCredential) :
    setJWTCredentialToResourceData (setJWTCredentialToResourceData d c) c
      = setJWTCredentialToResourceData d c := by
  simp only [setJWTCredentialToResourceData, ResourceData.Set, ResourceData.SetId]
  congr 1
  funext k
  split_ifs <;> rfl

/-! ## The outcome of each lifecycle function, by answer of the remote side -/

/-- Error body handed to `ErrorFromResponse`: a 2xx body went to the success
target, so the error map is still empty; any other body filled the map. -/
theorem Receive_received {α : Type} (meta : Sling) (req : Request) (decode : JSONObject → α → α)
    (successV : α) (code : Nat) (body : JSONObject) (h : meta req = .received code body) :
    Receive meta req decode successV [] =
      some (code, (if code ≠ 204 ∧ 200 ≤ code ∧ code ≤ 299 then decode body successV
        else successV), (if 200 ≤ code ∧ code ≤ 299 then [] else body)) := by
  unfold Receive
  simp only [h]
  split_ifs <;> simp_all

theorem Receive_failure {α : Type} (meta : Sling) (req : Request) (decode : JSONObject → α → α)
    (successV : α) (failureV : JSONObject) (h : meta req = .failure) :
    Receive meta req decode successV failureV = none := by
  unfold Receive
  simp only [h]

theorem resourceKongConsumerCreate_request (d : ResourceData) (meta : Sling) :
    (resourceKongConsumerCreate d meta).request =
      ⟨"POST", ["consumers/"], some (getConsumerFromResourceData d).marshal⟩ := by
  unfold resourceKongConsumerCreate
  simp only []
  split
  · rfl
  · split_ifs <;> rfl

theorem resourceKongConsumerCreate_failure (d : ResourceData) (meta : Sling)
    (h : meta (resourceKongConsumerCreate d meta).request = .failure) :
    (resourceKongConsumerCreate d meta).d = d ∧
      (resourceKongConsumerCreate d meta).error
        = some (.Errorf "Error while creating consumer.") := by
  rw [resourceKongConsumerCreate_request] at h
  unfold resourceKongConsumerCreate
  simp [Receive_failure _ _ _ _ _ h]

theorem resourceKongConsumerCreate_received (d : ResourceData) (meta : Sling) (code : Nat)
    (body : JSONObject) (h : meta (resourceKongConsumerCreate d meta).request = .received code body) :
    ((resourceKongConsumerCreate d meta).d, (resourceKongConsumerCreate d meta).error) =
      (if code = 409 then
          (d, some (.Errorf "409 Conflict - use terraform import to manage this consumer."))
        else if code = 201 then (setConsumerToResourceData d (Consumer.unmarshal body {}), none)
        else (d, some (.ErrorFromResponse code (if 200 ≤ code ∧ code ≤ 299 then [] else body)))) := by
  rw [resourceKongConsumerCreate_request] at h
  unfold resourceKongConsumerCreate
  simp only [Receive_received _ _ _ _ _ _ h]
  split_ifs <;> first | rfl | (exfalso; omega)

theorem resourceKongConsumerRead_request (d : ResourceData) (meta : Sling) :
    (resourceKongConsumerRead d meta).request =
      ⟨"GET", ["consumers/", d.Id], none⟩ := by
  unfold resourceKongConsumerRead
  simp only []
  split
  · rfl
  · split_ifs <;> rfl

theorem resourceKongConsumerRead_failure (d : ResourceData) (meta : Sling)
    (h : meta (resourceKongConsumerRead d meta).request = .failure) :
    (resourceKongConsumerRead d meta).d = d ∧
      (resourceKongConsumerRead d meta).error
        = some (.Errorf "Error while updating consumer.") := by
  rw [resourceKongConsumerRead_request] at h
  unfold resourceKongConsumerRead
  simp [Receive_failure _ _ _ _ _ h]

theorem resourceKongConsumerRead_received (d : ResourceData) (meta : Sling) (code : Nat)
    (body : JSONObject) (h : meta (resourceKongConsumerRead d meta).request = .received code body) :
    ((resourceKongConsumerRead d meta).d, (resourceKongConsumerRead d meta).error) =
      (if code = 404 then (d.SetId "", none)
        else if code = 200 then (setConsumerToResourceData d (Consumer.unmarshal body {}), none)
        else (d, some (.ErrorFromResponse code (if 200 ≤ code ∧ code ≤ 299 then [] else body)))) := by
  rw [resourceKongConsumerRead_request] at h
  unfold resourceKongConsumerRead
  simp only [Receive_received _ _ _ _ _ _ h]
  split_ifs <;> first | rfl | (exfalso; omega)

theorem resourceKongConsumerUpdate_request (d : ResourceData) (meta : Sling) :
    (resourceKongConsumerUpdate d meta).request =
      ⟨"PATCH", ["consumers/", (getConsumerFromResourceData d).ID], some (getConsumerFromResourceData d).marshal⟩ := by
  unfold resourceKongConsumerUpdate
  simp only []
  split
  · rfl
  · split_ifs <;> rfl

theorem resourceKongConsumerUpdate_failure (d : ResourceData) (meta : Sling)
    (h : meta (resourceKongConsumerUpdate d meta).request = .failure) :
    (resourceKongConsumerUpdate d meta).d = d ∧
      (resourceKongConsumerUpdate d meta).error
        = some (.Errorf "Error while updating consumer.") := by
  rw [resourceKongConsumerUpdate_request] at h
  unfold resourceKongConsumerUpdate
  simp [Receive_failure _ _ _ _ _ h]

theorem resourceKongConsumerUpdate_received (d : ResourceData) (meta : Sling) (code : Nat)
    (body : JSONObject) (h : meta (resourceKongConsumerUpdate d meta).request = .received code body) :
    ((resourceKongConsumerUpdate d meta).d, (resourceKongConsumerUpdate d meta).error) =
      (if code = 200 then (setConsumerToResourceData d (Consumer.unmarshal body {}), none)
        else (d, some (.ErrorFromResponse code (if 200 ≤ code ∧ code ≤ 299 then [] else body)))) := by
  rw [resourceKongConsumerUpdate_request] at h
  unfold resourceKongConsumerUpdate
  simp only [Receive_received _ _ _ _ _ _ h]
  split_ifs <;> first | rfl | (exfalso; omega)

theorem resourceKongConsumerDelete_request (d : ResourceData) (meta : Sling) :
    (resourceKongConsumerDelete d meta).request =
      ⟨"DELETE", ["consumers/", d.Id], none⟩ := by
  unfold resourceKongConsumerDelete
  simp only []
  split
  · rfl
  · split_ifs <;> rfl

theorem resourceKongConsumerDelete_failure (d : ResourceData) (meta : Sling)
    (h : meta (resourceKongConsumerDelete d meta).request = .failure) :
    (resourceKongConsumerDelete d meta).d = d ∧
      (resourceKongConsumerDelete d meta).error
        = some (.Errorf "Error while deleting consumer.") := by
  rw [resourceKongConsumerDelete_request] at h
  unfold resourceKongConsumerDelete
  simp [Receive_failure _ _ _ _ _ h]

theorem resourceKongConsumerDelete_received (d : ResourceData) (meta : Sling) (code : Nat)
    (body : JSONObject) (h : meta (resourceKongConsumerDelete d meta).request = .received code body) :
    ((resourceKongConsumerDelete d meta).d, (resourceKongConsumerDelete d meta).error) =
      (if code = 204 then (d, none)
        else (d, some (.ErrorFromResponse code (if 200 ≤ code ∧ code ≤ 299 then [] else body)))) := by
  rw [resourceKongConsumerDelete_request] at h
  unfold resourceKongConsumerDelete
  simp only [Receive_received _ _ _ _ _ _ h]
  split_ifs <;> first | rfl | (exfalso; omega)

theorem resourceKongJWTCredentialCreate_request (d : ResourceData) (meta : Sling) :
    (resourceKongJWTCredentialCreate d meta).request =
      ⟨"POST", ["consumers/", (getJWTCredentialFromResourceData d).Consumer ++ "/", "jwt/"],
        some (getJWTCredentialFromResourceData d).marshal⟩ := by
  unfold resourceKongJWTCredentialCreate
  simp only []
  split
  · rfl
  · split_ifs <;> rfl

theorem resourceKongJWTCredentialCreate_failure (d : ResourceData) (meta : Sling)
    (h : meta (resourceKongJWTCredentialCreate d meta).request = .failure) :
    (resourceKongJWTCredentialCreate d meta).d = d ∧
      (resourceKongJWTCredentialCreate d meta).error
        = some (.Errorf "Error while creating jwtCredential.") := by
  rw [resourceKongJWTCredentialCreate_request] at h
  unfold resourceKongJWTCredentialCreate
  simp [Receive_failure _ _ _ _ _ h]

theorem resourceKongJWTCredentialCreate_received (d : ResourceData) (meta : Sling) (code : Nat)
    (body : JSONObject) (h : meta (resourceKongJWTCredentialCreate d meta).request = .received code body) :
    ((resourceKongJWTCredentialCreate d meta).d, (resourceKongJWTCredentialCreate d meta).error) =
      (if code = 201 then (setJWTCredentialToResourceData d (JWTCredential.unmarshal body (getJWTCredentialFromResourceData d)), none)
        else (d, some (.ErrorFromResponse code (if 200 ≤ code ∧ code ≤ 299 then [] else body)))) := by
  rw [resourceKongJWTCredentialCreate_request] at h
  unfold resourceKongJWTCredentialCreate
  simp only [Receive_received _ _ _ _ _ _ h]
  split_ifs <;> first | rfl | (exfalso; omega)

theorem resourceKongJWTCredentialRead_request (d : ResourceData) (meta : Sling) :
    (resourceKongJWTCredentialRead d meta).request =
      ⟨"GET", ["consumers/", (getJWTCredentialFromResourceData d).Consumer ++ "/", "jwt/",
        (getJWTCredentialFromResourceData d).ID], none⟩ := by
  unfold resourceKongJWTCredentialRead
  simp only []
  split
  · rfl
  · split_ifs <;> rfl

theorem resourceKongJWTCredentialRead_failure (d : ResourceData) (meta : Sling)
    (h : meta (resourceKongJWTCredentialRead d meta).request = .failure) :
    (resourceKongJWTCredentialRead d meta).d = d ∧
      (resourceKongJWTCredentialRead d meta).error
        = some (.Errorf "Error while updating jwtCredential.") := by
  rw [resourceKongJWTCredentialRead_request] at h
  unfold resourceKongJWTCredentialRead
  simp [Receive_failure _ _ _ _ _ h]

theorem resourceKongJWTCredentialRead_received (d : ResourceData) (meta : Sling) (code : Nat)
    (body : JSONObject) (h : meta (resourceKongJWTCredentialRead d meta).request = .received code body) :
    ((resourceKongJWTCredentialRead d meta).d, (resourceKongJWTCredentialRead d meta).error) =
      (if code = 404 then (d.SetId "", none)
        else if code = 200 then (setJWTCredentialToResourceData d (JWTCredential.unmarshal body (getJWTCredentialFromResourceData d)), none)
        else (d, some (.ErrorFromResponse code (if 200 ≤ code ∧ code ≤ 299 then [] else body)))) := by
  rw [resourceKongJWTCredentialRead_request] at h
  unfold resourceKongJWTCredentialRead
  simp only [Receive_received _ _ _ _ _ _ h]
  split_ifs <;> first | rfl | (exfalso; omega)

theorem resourceKongJWTCredentialUpdate_request (d : ResourceData) (meta : Sling) :
    (resourceKongJWTCredentialUpdate d meta).request =
      ⟨"PATCH", ["consumers/", (getJWTCredentialFromResourceData d).Consumer ++ "/", "jwt/",
        (getJWTCredentialFromResourceData d).ID], some (getJWTCredentialFromResourceData d).marshal⟩ := by
  unfold resourceKongJWTCredentialUpdate
  simp only []
  split
  · rfl
  · split_ifs <;> rfl

theorem resourceKongJWTCredentialUpdate_failure (d : ResourceData) (meta : Sling)
    (h : meta (resourceKongJWTCredentialUpdate d meta).request = .failure) :
    (resourceKongJWTCredentialUpdate d meta).d = d ∧
      (resourceKongJWTCredentialUpdate d meta).error
        = some (.Errorf "Error while updating jwtCredential.") := by
  rw [resourceKongJWTCredentialUpdate_request] at h
  unfold resourceKongJWTCredentialUpdate
  simp [Receive_failure _ _ _ _ _ h]

theorem resourceKongJWTCredentialUpdate_received (d : ResourceData) (meta : Sling) (code : Nat)
    (body : JSONObject) (h : meta (resourceKongJWTCredentialUpdate d meta).request = .received code body) :
    ((resourceKongJWTCredentialUpdate d meta).d, (resourceKongJWTCredentialUpdate d meta).error) =
      (if code = 200 then (setJWTCredentialToResourceData d (JWTCredential.unmarshal body (getJWTCredentialFromResourceData d)), none)
        else (d, some (.ErrorFromResponse code (if 200 ≤ code ∧ code ≤ 299 then [] else body)))) := by
  rw [resourceKongJWTCredentialUpdate_request] at h
  unfold resourceKongJWTCredentialUpdate
  simp only [Receive_received _ _ _ _ _ _ h]
  split_ifs <;> first | rfl | (exfalso; omega)

theorem resourceKongJWTCredentialDelete_request (d : ResourceData) (meta : Sling) :
    (resourceKongJWTCredentialDelete d meta).request =
      ⟨"DELETE", ["consumers/", (getJWTCredentialFromResourceData d).Consumer ++ "/", "jwt/",
        (getJWTCredentialFromResourceData d).ID], none⟩ := by
  unfold resourceKongJWTCredentialDelete
  simp only []
  split
  · rfl
  · split_ifs <;> rfl

theorem resourceKongJWTCredentialDelete_failure (d : ResourceData) (meta : Sling)
    (h : meta (resourceKongJWTCredentialDelete d meta).request = .failure) :
    (resourceKongJWTCredentialDelete d meta).d = d ∧
      (resourceKongJWTCredentialDelete d meta).error
        = some (.Errorf "Error while deleting jwtCredential.") := by
  rw [resourceKongJWTCredentialDelete_request] at h
  unfold resourceKongJWTCredentialDelete
  simp [Receive_failure _ _ _ _ _ h]

theorem resourceKongJWTCredentialDelete_received (d : ResourceData) (meta : Sling) (code : Nat)
    (body : JSONObject) (h : meta (resourceKongJWTCredentialDelete d meta).request = .received code body) :
    ((resourceKongJWTCredentialDelete d meta).d, (resourceKongJWTCredentialDelete d meta).error) =
      (if code = 204 then (d, none)
        else (d, some (.ErrorFromResponse code (if 200 ≤ code ∧ code ≤ 299 then [] else body)))) := by
  rw [resourceKongJWTCredentialDelete_request] at h
  unfold resourceKongJWTCredentialDelete
  simp only [Receive_received _ _ _ _ _ _ h]
  split_ifs <;> first | rfl | (exfalso; omega)

/-! ## Status codes, failures and the declarative state -/

/-- C1. When the call to the remote side does not fail, each lifecycle function
of the consumer and of the JWT credential returns `nil` exactly on its success
status: 201 for Create, 200 or 404 for Read, 200 for Update, 204 for Delete;
on every other status it returns an error. -/
theorem status_code_contract (r : Resource)
    (hr : r = resourceKongConsumer ∨ r = resourceKongJWTCredential)
    (d : ResourceData) (meta : Sling) (code : Nat) (body : JSONObject) :
    (meta (r.Create d meta).request = .received code body →
      ((r.Create d meta).error = none ↔ code = 201)) ∧
    (meta (r.Read d meta).request = .received code body →
      ((r.Read d meta).error = none ↔ (code = 200 ∨ code = 404))) ∧
    (meta (r.Update d meta).request = .received code body →
      ((r.Update d meta).error = none ↔ code = 200)) ∧
    (meta (r.Delete d meta).request = .received code body →
      ((r.Delete d meta).error = none ↔ code = 204)) := by
  rcases hr with rfl | rfl
  · refine ⟨fun h => ?_, fun h => ?_, fun h => ?_, fun h => ?_⟩
    · have key := congrArg Prod.snd (resourceKongConsumerCreate_received d meta code body h)
      show (resourceKongConsumerCreate d meta).error = none ↔ _
      simp only [] at key
      rw [key]
      split_ifs <;> simp_all
    · have key := congrArg Prod.snd (resourceKongConsumerRead_received d meta code body h)
      show (resourceKongConsumerRead d meta).error = none ↔ _
      simp only [] at key
      rw [key]
      split_ifs <;> simp_all
    · have key := congrArg Prod.snd (resourceKongConsumerUpdate_received d meta code body h)
      show (resourceKongConsumerUpdate d meta).error = none ↔ _
      simp only [] at key
      rw [key]
      split_ifs <;> simp_all
    · have key := congrArg Prod.snd (resourceKongConsumerDelete_received d meta code body h)
      show (resourceKongConsumerDelete d meta).error = none ↔ _
      simp only [] at key
      rw [key]
      split_ifs <;> simp_all
  · refine ⟨fun h => ?_, fun h => ?_, fun h => ?_, fun h => ?_⟩
    · have key := congrArg Prod.snd (resourceKongJWTCredentialCreate_received d meta code body h)
      show (resourceKongJWTCredentialCreate d meta).error = none ↔ _
      simp only [] at key
      rw [key]
      split_ifs <;> simp_all
    · have key := congrArg Prod.snd (resourceKongJWTCredentialRead_received d meta code body h)
      show (resourceKongJWTCredentialRead d meta).error = none ↔ _
      simp only [] at key
      rw [key]
      split_ifs <;> simp_all
    · have key := congrArg Prod.snd (resourceKongJWTCredentialUpdate_received d meta code body h)
      show (resourceKongJWTCredentialUpdate d meta).error = none ↔ _
      simp only [] at key
      rw [key]
      split_ifs <;> simp_all
    · have key := congrArg Prod.snd (resourceKongJWTCredentialDelete_received d meta code body h)
      show (resourceKongJWTCredentialDelete d meta).error = none ↔ _
      simp only [] at key
      rw [key]
      split_ifs <;> simp_all

/-- Witness of C1: a consumer Create answered 201 succeeds, while Read, Update and
Delete answered 201 return an error. -/
theorem status_code_contract_witness :
    (resourceKongConsumer.Create (declared [("username", "alice")])
        (stub (.received 201 [("id", "u1"), ("username", "alice")]))).error = none ∧
    (resourceKongConsumer.Read (declared [("username", "alice")])
        (stub (.received 201 [("id", "u1"), ("username", "alice")]))).error ≠ none ∧
    (resourceKongConsumer.Update (declared [("username", "alice")])
        (stub (.received 201 [("id", "u1"), ("username", "alice")]))).error ≠ none ∧
    (resourceKongConsumer.Delete (declared [("username", "alice")])
        (stub (.received 201 [("id", "u1"), ("username", "alice")]))).error ≠ none :=
  have w := status_code_contract resourceKongConsumer (Or.inl rfl)
    (declared [("username", "alice")])
    (stub (.received 201 [("id", "u1"), ("username", "alice")])) 201
    [("id", "u1"), ("username", "alice")]
  ⟨(w.1 rfl).mpr rfl,
    fun e => absurd ((w.2.1 rfl).mp e) (by decide),
    fun e => absurd ((w.2.2.1 rfl).mp e) (by decide),
    fun e => absurd ((w.2.2.2 rfl).mp e) (by decide)⟩

/-- A consumer Create answered 409 returns the message that points to
the terraform import command, without calling `ErrorFromResponse`, and leaves the state
as it was. -/
theorem resourceKongConsumerCreate_conflict (d : ResourceData) (meta : Sling)
    (body : JSONObject)
    (h : meta (resourceKongConsumerCreate d meta).request = .received 409 body) :
    (resourceKongConsumerCreate d meta).error
        = some (.Errorf "409 Conflict - use terraform import to manage this consumer.") ∧
      (resourceKongConsumerCreate d meta).d = d := by
  have key := resourceKongConsumerCreate_received d meta 409 body h
  simp only [if_true, Prod.mk.injEq] at key
  exact ⟨key.2, key.1⟩

/-- A JWT credential Create answered 409 takes the generic branch: the error is
the one `ErrorFromResponse` builds from the response and the decoded error
body. The state is left as it was. -/
theorem resourceKongJWTCredentialCreate_conflict (d : ResourceData) (meta : Sling)
    (body : JSONObject)
    (h : meta (resourceKongJWTCredentialCreate d meta).request = .received 409 body) :
    (resourceKongJWTCredentialCreate d meta).error = some (.ErrorFromResponse 409 body) ∧
      (resourceKongJWTCredentialCreate d meta).d = d := by
  have key := resourceKongJWTCredentialCreate_received d meta 409 body h
  simp at key
  exact ⟨key.2, key.1⟩

/-- C2, evaluated on the code. A Create answered 409 on a state with empty
identity: the consumer returns the distinguished conflict message; the JWT
credential returns the generic error built from the response, not a conflict
error. Both leave the identity empty. -/
theorem create_conflict_evaluated :
    (resourceKongConsumerCreate (declared [("username", "alice")])
        (stub (.received 409 [("username", "already exists")]))).error
      = some (.Errorf "409 Conflict - use terraform import to manage this consumer.") ∧
    (resourceKongJWTCredentialCreate (declared [("key", "k1"), ("consumer", "c1")])
        (stub (.received 409 [("key", "already exists")]))).error
      = some (.ErrorFromResponse 409 [("key", "already exists")]) ∧
    (resourceKongConsumerCreate (declared [("username", "alice")])
        (stub (.received 409 [("username", "already exists")]))).d.Id = "" ∧
    (resourceKongJWTCredentialCreate (declared [("key", "k1"), ("consumer", "c1")])
        (stub (.received 409 [("key", "already exists")]))).d.Id = "" := by
  decide

/-- C3. A Read answered 404 returns `nil`, empties the identity and leaves
every attribute as it was, for the consumer and for the JWT credential. -/
theorem read_not_found_clears_identity (r : Resource)
    (hr : r = resourceKongConsumer ∨ r = resourceKongJWTCredential)
    (d : ResourceData) (meta : Sling) (body : JSONObject)
    (h : meta (r.Read d meta).request = .received 404 body) :
    (r.Read d meta).error = none ∧ (r.Read d meta).d.Id = "" ∧
      ∀ key : String, (r.Read d meta).d.Get key = d.Get key := by
  rcases hr with rfl | rfl
  · have key := resourceKongConsumerRead_received d meta 404 body h
    simp only [if_true, Prod.mk.injEq] at key
    show (resourceKongConsumerRead d meta).error = none ∧
      (resourceKongConsumerRead d meta).d.Id = "" ∧
      ∀ key : String, (resourceKongConsumerRead d meta).d.Get key = d.Get key
    rw [key.1, key.2]
    exact ⟨rfl, rfl, fun _ => rfl⟩
  · have key := resourceKongJWTCredentialRead_received d meta 404 body h
    simp only [if_true, Prod.mk.injEq] at key
    show (resourceKongJWTCredentialRead d meta).error = none ∧
      (resourceKongJWTCredentialRead d meta).d.Id = "" ∧
      ∀ key : String, (resourceKongJWTCredentialRead d meta).d.Get key = d.Get key
    rw [key.1, key.2]
    exact ⟨rfl, rfl, fun _ => rfl⟩

/-- Witness of C3: a JWT credential Read answered 404. -/
theorem read_not_found_clears_identity_witness :
    (resourceKongJWTCredential.Read (tracked "j1" [("key", "k1"), ("consumer", "c1")])
        (stub (.received 404 [("message", "Not found")]))).error = none ∧
    (resourceKongJWTCredential.Read (tracked "j1" [("key", "k1"), ("consumer", "c1")])
        (stub (.received 404 [("message", "Not found")]))).d.Id = "" ∧
    (resourceKongJWTCredential.Read (tracked "j1" [("key", "k1"), ("consumer", "c1")])
        (stub (.received 404 [("message", "Not found")]))).d.Get "key" = "k1" :=
  have w := read_not_found_clears_identity resourceKongJWTCredential (Or.inr rfl)
    (tracked "j1" [("key", "k1"), ("consumer", "c1")])
    (stub (.received 404 [("message", "Not found")])) [("message", "Not found")] rfl
  ⟨w.1, w.2.1, (w.2.2 "key").trans (by decide)⟩

/-- C4. A consumer Create answered 201 returns `nil` and leaves a state whose
identity, `username` and `custom_id` are the `id`, `username` and `custom_id`
the decoder finds in the response body (`JSONObject.get`: the last member of
that name, in any letter case), `""` for a member the body does not have. -/
theorem consumer_create_writes_body (d : ResourceData) (meta : Sling) (body : JSONObject)
    (_hid : d.Id = "")
    (h : meta (resourceKongConsumerCreate d meta).request = .received 201 body) :
    (resourceKongConsumerCreate d meta).error = none ∧
    (resourceKongConsumerCreate d meta).d.Id = (body.get "id").getD "" ∧
    (resourceKongConsumerCreate d meta).d.Get "username" = (body.get "username").getD "" ∧
    (resourceKongConsumerCreate d meta).d.Get "custom_id"
      = (body.get "custom_id").getD "" := by
  have key := resourceKongConsumerCreate_received d meta 201 body h
  simp only [show ¬ ((201 : Nat) = 409) by decide, if_false, if_true, Prod.mk.injEq] at key
  rw [key.1, key.2, setConsumerToResourceData_Id, setConsumerToResourceData_username,
    setConsumerToResourceData_custom_id, Consumer.unmarshal_id_member, Consumer.unmarshal_Username,
    Consumer.unmarshal_CustomID]
  exact ⟨rfl, rfl, rfl, rfl⟩

/-- Witness of C4, the scenario of the specification: creating the consumer
`alice` against a stub that answers 201 with id `u1` and username `alice`;
then the same Create answered with member names in capitals. -/
theorem consumer_create_writes_body_witness :
    (resourceKongConsumerCreate (declared [("username", "alice")])
        (stub (.received 201 [("id", "u1"), ("username", "alice")]))).error = none ∧
    (resourceKongConsumerCreate (declared [("username", "alice")])
        (stub (.received 201 [("id", "u1"), ("username", "alice")]))).d.Id = "u1" ∧
    (resourceKongConsumerCreate (declared [("username", "alice")])
        (stub (.received 201 [("id", "u1"), ("username", "alice")]))).d.Get "username"
      = "alice" ∧
    (resourceKongConsumerCreate (declared [("username", "alice")])
        (stub (.received 201 [("id", "u1"), ("username", "alice")]))).d.Get "custom_id"
      = "" ∧
    (resourceKongConsumerCreate (declared [("username", "alice")])
        (stub (.received 201 [("ID", "u1"), ("Username", "bob"), ("CUSTOM_ID", "z")]))).d.Id
      = "u1" ∧
    (resourceKongConsumerCreate (declared [("username", "alice")])
        (stub (.received 201 [("ID", "u1"), ("Username", "bob"), ("CUSTOM_ID", "z")]))).d.Get
        "username" = "bob" ∧
    (resourceKongConsumerCreate (declared [("username", "alice")])
        (stub (.received 201 [("ID", "u1"), ("Username", "bob"), ("CUSTOM_ID", "z")]))).d.Get
        "custom_id" = "z" :=
  have w := consumer_create_writes_body (declared [("username", "alice")])
    (stub (.received 201 [("id", "u1"), ("username", "alice")]))
    [("id", "u1"), ("username", "alice")] rfl rfl
  have v := consumer_create_writes_body (declared [("username", "alice")])
    (stub (.received 201 [("ID", "u1"), ("Username", "bob"), ("CUSTOM_ID", "z")]))
    [("ID", "u1"), ("Username", "bob"), ("CUSTOM_ID", "z")] rfl rfl
  ⟨w.1, w.2.1.trans (by decide), w.2.2.1.trans (by decide), w.2.2.2.trans (by decide),
    v.2.1.trans (by decide), v.2.2.1.trans (by decide), v.2.2.2.trans (by decide)⟩

/-! ## Failed calls -/

theorem resourceKongConsumerCreate_error_keeps (d : ResourceData) (meta : Sling)
    (he : (resourceKongConsumerCreate d meta).error ≠ none) :
    (resourceKongConsumerCreate d meta).d = d := by
  cases hm : meta (resourceKongConsumerCreate d meta).request with
  | failure => exact (resourceKongConsumerCreate_failure d meta hm).1
  | received code body =>
    have key := resourceKongConsumerCreate_received d meta code body hm
    split_ifs at key <;> simp only [Prod.mk.injEq] at key <;>
      first | exact key.1 | exact absurd key.2 he

theorem resourceKongConsumerCreate_change (d : ResourceData) (meta : Sling) :
    (resourceKongConsumerCreate d meta).d = d ∨
      ∃ body, meta (resourceKongConsumerCreate d meta).request = .received 201 body := by
  cases hm : meta (resourceKongConsumerCreate d meta).request with
  | failure => exact Or.inl (resourceKongConsumerCreate_failure d meta hm).1
  | received code body =>
    have key := resourceKongConsumerCreate_received d meta code body hm
    split_ifs at key <;> simp only [Prod.mk.injEq] at key <;>
      first
      | exact Or.inl key.1
      | (subst_vars; exact Or.inr ⟨body, rfl⟩)

theorem resourceKongConsumerRead_error_keeps (d : ResourceData) (meta : Sling)
    (he : (resourceKongConsumerRead d meta).error ≠ none) :
    (resourceKongConsumerRead d meta).d = d := by
  cases hm : meta (resourceKongConsumerRead d meta).request with
  | failure => exact (resourceKongConsumerRead_failure d meta hm).1
  | received code body =>
    have key := resourceKongConsumerRead_received d meta code body hm
    split_ifs at key <;> simp only [Prod.mk.injEq] at key <;>
      first | exact key.1 | exact absurd key.2 he

theorem resourceKongConsumerRead_change (d : ResourceData) (meta : Sling) :
    (resourceKongConsumerRead d meta).d = d ∨
      (∃ body, meta (resourceKongConsumerRead d meta).request = .received 200 body) ∨
      ((∃ body, meta (resourceKongConsumerRead d meta).request = .received 404 body) ∧
        (resourceKongConsumerRead d meta).d = d.SetId "") := by
  cases hm : meta (resourceKongConsumerRead d meta).request with
  | failure => exact Or.inl (resourceKongConsumerRead_failure d meta hm).1
  | received code body =>
    have key := resourceKongConsumerRead_received d meta code body hm
    split_ifs at key <;> simp only [Prod.mk.injEq] at key <;>
      first
      | exact Or.inl key.1
      | (subst_vars; exact Or.inr (Or.inl ⟨body, rfl⟩))
      | (subst_vars; exact Or.inr (Or.inr ⟨⟨body, rfl⟩, key.1⟩))

theorem resourceKongConsumerUpdate_error_keeps (d : ResourceData) (meta : Sling)
    (he : (resourceKongConsumerUpdate d meta).error ≠ none) :
    (resourceKongConsumerUpdate d meta).d = d := by
  cases hm : meta (resourceKongConsumerUpdate d meta).request with
  | failure => exact (resourceKongConsumerUpdate_failure d meta hm).1
  | received code body =>
    have key := resourceKongConsumerUpdate_received d meta code body hm
    split_ifs at key <;> simp only [Prod.mk.injEq] at key <;>
      first | exact key.1 | exact absurd key.2 he

theorem resourceKongConsumerUpdate_change (d : ResourceData) (meta : Sling) :
    (resourceKongConsumerUpdate d meta).d = d ∨
      ∃ body, meta (resourceKongConsumerUpdate d meta).request = .received 200 body := by
  cases hm : meta (resourceKongConsumerUpdate d meta).request with
  | failure => exact Or.inl (resourceKongConsumerUpdate_failure d meta hm).1
  | received code body =>
    have key := resourceKongConsumerUpdate_received d meta code body hm
    split_ifs at key <;> simp only [Prod.mk.injEq] at key <;>
      first
      | exact Or.inl key.1
      | (subst_vars; exact Or.inr ⟨body, rfl⟩)

theorem resourceKongConsumerDelete_keeps (d : ResourceData) (meta : Sling) :
    (resourceKongConsumerDelete d meta).d = d := by
  cases hm : meta (resourceKongConsumerDelete d meta).request with
  | failure => exact (resourceKongConsumerDelete_failure d meta hm).1
  | received code body =>
    have key := resourceKongConsumerDelete_received d meta code body hm
    split_ifs at key <;> simp only [Prod.mk.injEq] at key <;> exact key.1

theorem resourceKongJWTCredentialCreate_error_keeps (d : ResourceData) (meta : Sling)
    (he : (resourceKongJWTCredentialCreate d meta).error ≠ none) :
    (resourceKongJWTCredentialCreate d meta).d = d := by
  cases hm : meta (resourceKongJWTCredentialCreate d meta).request with
  | failure => exact (resourceKongJWTCredentialCreate_failure d meta hm).1
  | received code body =>
    have key := resourceKongJWTCredentialCreate_received d meta code body hm
    split_ifs at key <;> simp only [Prod.mk.injEq] at key <;>
      first | exact key.1 | exact absurd key.2 he

theorem resourceKongJWTCredentialCreate_change (d : ResourceData) (meta : Sling) :
    (resourceKongJWTCredentialCreate d meta).d = d ∨
      ∃ body, meta (resourceKongJWTCredentialCreate d meta).request = .received 201 body := by
  cases hm : meta (resourceKongJWTCredentialCreate d meta).request with
  | failure => exact Or.inl (resourceKongJWTCredentialCreate_failure d meta hm).1
  | received code body =>
    have key := resourceKongJWTCredentialCreate_received d meta code body hm
    split_ifs at key <;> simp only [Prod.mk.injEq] at key <;>
      first
      | exact Or.inl key.1
      | (subst_vars; exact Or.inr ⟨body, rfl⟩)

theorem resourceKongJWTCredentialRead_error_keeps (d : ResourceData) (meta : Sling)
    (he : (resourceKongJWTCredentialRead d meta).error ≠ none) :
    (resourceKongJWTCredentialRead d meta).d = d := by
  cases hm : meta (resourceKongJWTCredentialRead d meta).request with
  | failure => exact (resourceKongJWTCredentialRead_failure d meta hm).1
  | received code body =>
    have key := resourceKongJWTCredentialRead_received d meta code body hm
    split_ifs at key <;> simp only [Prod.mk.injEq] at key <;>
      first | exact key.1 | exact absurd key.2 he

theorem resourceKongJWTCredentialRead_change (d : ResourceData) (meta : Sling) :
    (resourceKongJWTCredentialRead d meta).d = d ∨
      (∃ body, meta (resourceKongJWTCredentialRead d meta).request = .received 200 body) ∨
      ((∃ body, meta (resourceKongJWTCredentialRead d meta).request = .received 404 body) ∧
        (resourceKongJWTCredentialRead d meta).d = d.SetId "") := by
  cases hm : meta (resourceKongJWTCredentialRead d meta).request with
  | failure => exact Or.inl (resourceKongJWTCredentialRead_failure d meta hm).1
  | received code body =>
    have key := resourceKongJWTCredentialRead_received d meta code body hm
    split_ifs at key <;> simp only [Prod.mk.injEq] at key <;>
      first
      | exact Or.inl key.1
      | (subst_vars; exact Or.inr (Or.inl ⟨body, rfl⟩))
      | (subst_vars; exact Or.inr (Or.inr ⟨⟨body, rfl⟩, key.1⟩))

theorem resourceKongJWTCredentialUpdate_error_keeps (d : ResourceData) (meta : Sling)
    (he : (resourceKongJWTCredentialUpdate d meta).error ≠ none) :
    (resourceKongJWTCredentialUpdate d meta).d = d := by
  cases hm : meta (resourceKongJWTCredentialUpdate d meta).request with
  | failure => exact (resourceKongJWTCredentialUpdate_failure d meta hm).1
  | received code body =>
    have key := resourceKongJWTCredentialUpdate_received d meta code body hm
    split_ifs at key <;> simp only [Prod.mk.injEq] at key <;>
      first | exact key.1 | exact absurd key.2 he

theorem resourceKongJWTCredentialUpdate_change (d : ResourceData) (meta : Sling) :
    (resourceKongJWTCredentialUpdate d meta).d = d ∨
      ∃ body, meta (resourceKongJWTCredentialUpdate d meta).request = .received 200 body := by
  cases hm : meta (resourceKongJWTCredentialUpdate d meta).request with
  | failure => exact Or.inl (resourceKongJWTCredentialUpdate_failure d meta hm).1
  | received code body =>
    have key := resourceKongJWTCredentialUpdate_received d meta code body hm
    split_ifs at key <;> simp only [Prod.mk.injEq] at key <;>
      first
      | exact Or.inl key.1
      | (subst_vars; exact Or.inr ⟨body, rfl⟩)

theorem resourceKongJWTCredentialDelete_keeps (d : ResourceData) (meta : Sling) :
    (resourceKongJWTCredentialDelete d meta).d = d := by
  cases hm : meta (resourceKongJWTCredentialDelete d meta).request with
  | failure => exact (resourceKongJWTCredentialDelete_failure d meta hm).1
  | received code body =>
    have key := resourceKongJWTCredentialDelete_received d meta code body hm
    split_ifs at key <;> simp only [Prod.mk.injEq] at key <;> exact key.1

/-- C5. For the consumer and for the JWT credential, a lifecycle function that
returns an error leaves the state exactly as it was. The state differs from
the one before the call only when the remote side answered the success status
of the function (201 for Create, 200 for Read and Update), or when a Read was
answered 404, in which case only the identity was emptied; Delete never
changes the state. -/
theorem failed_call_leaves_state (r : Resource)
    (hr : r = resourceKongConsumer ∨ r = resourceKongJWTCredential)
    (d : ResourceData) (meta : Sling) :
    ((r.Create d meta).error ≠ none → (r.Create d meta).d = d) ∧
    ((r.Read d meta).error ≠ none → (r.Read d meta).d = d) ∧
    ((r.Update d meta).error ≠ none → (r.Update d meta).d = d) ∧
    ((r.Delete d meta).error ≠ none → (r.Delete d meta).d = d) ∧
    ((r.Create d meta).d = d ∨
      ∃ body, meta (r.Create d meta).request = .received 201 body) ∧
    ((r.Read d meta).d = d ∨
      (∃ body, meta (r.Read d meta).request = .received 200 body) ∨
      ((∃ body, meta (r.Read d meta).request = .received 404 body) ∧
        (r.Read d meta).d = d.SetId "")) ∧
    ((r.Update d meta).d = d ∨
      ∃ body, meta (r.Update d meta).request = .received 200 body) ∧
    (r.Delete d meta).d = d := by
  rcases hr with rfl | rfl
  · exact ⟨resourceKongConsumerCreate_error_keeps d meta,
      resourceKongConsumerRead_error_keeps d meta,
      resourceKongConsumerUpdate_error_keeps d meta,
      fun _ => resourceKongConsumerDelete_keeps d meta,
      resourceKongConsumerCreate_change d meta,
      resourceKongConsumerRead_change d meta,
      resourceKongConsumerUpdate_change d meta,
      resourceKongConsumerDelete_keeps d meta⟩
  · exact ⟨resourceKongJWTCredentialCreate_error_keeps d meta,
      resourceKongJWTCredentialRead_error_keeps d meta,
      resourceKongJWTCredentialUpdate_error_keeps d meta,
      fun _ => resourceKongJWTCredentialDelete_keeps d meta,
      resourceKongJWTCredentialCreate_change d meta,
      resourceKongJWTCredentialRead_change d meta,
      resourceKongJWTCredentialUpdate_change d meta,
      resourceKongJWTCredentialDelete_keeps d meta⟩

/-- Witness of C5: the four consumer functions on a tracked consumer, answered
500 by the remote side. -/
theorem failed_call_leaves_state_witness :
    ((resourceKongConsumer.Create (tracked "u1" [("username", "alice")])
        (stub (.received 500 [("message", "oops")]))).error ≠ none ∧
      (resourceKongConsumer.Create (tracked "u1" [("username", "alice")])
        (stub (.received 500 [("message", "oops")]))).d
        = tracked "u1" [("username", "alice")]) ∧
    ((resourceKongConsumer.Read (tracked "u1" [("username", "alice")])
        (stub (.received 500 [("message", "oops")]))).error ≠ none ∧
      (resourceKongConsumer.Read (tracked "u1" [("username", "alice")])
        (stub (.received 500 [("message", "oops")]))).d
        = tracked "u1" [("username", "alice")]) ∧
    ((resourceKongConsumer.Update (tracked "u1" [("username", "alice")])
        (stub (.received 500 [("message", "oops")]))).error ≠ none ∧
      (resourceKongConsumer.Update (tracked "u1" [("username", "alice")])
        (stub (.received 500 [("message", "oops")]))).d
        = tracked "u1" [("username", "alice")]) ∧
    ((resourceKongConsumer.Delete (tracked "u1" [("username", "alice")])
        (stub (.received 500 [("message", "oops")]))).error ≠ none ∧
      (resourceKongConsumer.Delete (tracked "u1" [("username", "alice")])
        (stub (.received 500 [("message", "oops")]))).d
        = tracked "u1" [("username", "alice")]) :=
  have w := failed_call_leaves_state resourceKongConsumer (Or.inl rfl)
    (tracked "u1" [("username", "alice")]) (stub (.received 500 [("message", "oops")]))
  ⟨⟨by decide, w.1 (by decide)⟩, ⟨by decide, w.2.1 (by decide)⟩,
    ⟨by decide, w.2.2.1 (by decide)⟩, ⟨by decide, w.2.2.2.1 (by decide)⟩⟩

/-! ## Successful calls -/

theorem setJWTCredentialToResourceData_key (d : ResourceData) (c : JWTCredential) :
    (setJWTCredentialToResourceData d c).Get "key" = c.Key := by
  simp [setJWTCredentialToResourceData, ResourceData.Get, ResourceData.Set]

theorem setJWTCredentialToResourceData_algorithm (d : ResourceData) (c : JWTCredential) :
    (setJWTCredentialToResourceData d c).Get "algorithm" = c.Algorithm := by
  simp [setJWTCredentialToResourceData, ResourceData.Get, ResourceData.Set]

theorem setJWTCredentialToResourceData_rsa_public_key (d : ResourceData) (c : JWTCredential) :
    (setJWTCredentialToResourceData d c).Get "rsa_public_key" = c.RSAPublicKey := by
  simp [setJWTCredentialToResourceData, ResourceData.Get, ResourceData.Set]

theorem setJWTCredentialToResourceData_secret (d : ResourceData) (c : JWTCredential) :
    (setJWTCredentialToResourceData d c).Get "secret" = c.Secret := by
  simp [setJWTCredentialToResourceData, ResourceData.Get, ResourceData.Set]

theorem setJWTCredentialToResourceData_consumer (d : ResourceData) (c : JWTCredential) :
    (setJWTCredentialToResourceData d c).Get "consumer" = c.Consumer := by
  simp [setJWTCredentialToResourceData, ResourceData.Get, ResourceData.Set]

theorem JWTCredential.marshal_keys (c : JWTCredential) :
    "consumer" ∉ JSONObject.keys c.marshal := by
  simp only [JWTCredential.marshal, omitempty, JSONObject.keys]
  split_ifs <;> simp

theorem resourceKongConsumerCreate_success (d : ResourceData) (meta : Sling) (body : JSONObject)
    (h : meta (resourceKongConsumerCreate d meta).request = .received 201 body) :
    (resourceKongConsumerCreate d meta).error = none ∧
      (resourceKongConsumerCreate d meta).d = setConsumerToResourceData d (Consumer.unmarshal body {}) := by
  have key := resourceKongConsumerCreate_received d meta 201 body h
  simp at key
  exact ⟨key.2, key.1⟩

theorem resourceKongConsumerRead_success (d : ResourceData) (meta : Sling) (body : JSONObject)
    (h : meta (resourceKongConsumerRead d meta).request = .received 200 body) :
    (resourceKongConsumerRead d meta).error = none ∧
      (resourceKongConsumerRead d meta).d = setConsumerToResourceData d (Consumer.unmarshal body {}) := by
  have key := resourceKongConsumerRead_received d meta 200 body h
  simp at key
  exact ⟨key.2, key.1⟩

theorem resourceKongConsumerUpdate_success (d : ResourceData) (meta : Sling) (body : JSONObject)
    (h : meta (resourceKongConsumerUpdate d meta).request = .received 200 body) :
    (resourceKongConsumerUpdate d meta).error = none ∧
      (resourceKongConsumerUpdate d meta).d = setConsumerToResourceData d (Consumer.unmarshal body {}) := by
  have key := resourceKongConsumerUpdate_received d meta 200 body h
  simp at key
  exact ⟨key.2, key.1⟩

theorem resourceKongJWTCredentialCreate_success (d : ResourceData) (meta : Sling) (body : JSONObject)
    (h : meta (resourceKongJWTCredentialCreate d meta).request = .received 201 body) :
    (resourceKongJWTCredentialCreate d meta).error = none ∧
      (resourceKongJWTCredentialCreate d meta).d = setJWTCredentialToResourceData d (JWTCredential.unmarshal body (getJWTCredentialFromResourceData d)) := by
  have key := resourceKongJWTCredentialCreate_received d meta 201 body h
  simp at key
  exact ⟨key.2, key.1⟩

theorem resourceKongJWTCredentialRead_success (d : ResourceData) (meta : Sling) (body : JSONObject)
    (h : meta (resourceKongJWTCredentialRead d meta).request = .received 200 body) :
    (resourceKongJWTCredentialRead d meta).error = none ∧
      (resourceKongJWTCredentialRead d meta).d = setJWTCredentialToResourceData d (JWTCredential.unmarshal body (getJWTCredentialFromResourceData d)) := by
  have key := resourceKongJWTCredentialRead_received d meta 200 body h
  simp at key
  exact ⟨key.2, key.1⟩

theorem resourceKongJWTCredentialUpdate_success (d : ResourceData) (meta : Sling) (body : JSONObject)
    (h : meta (resourceKongJWTCredentialUpdate d meta).request = .received 200 body) :
    (resourceKongJWTCredentialUpdate d meta).error = none ∧
      (resourceKongJWTCredentialUpdate d meta).d = setJWTCredentialToResourceData d (JWTCredential.unmarshal body (getJWTCredentialFromResourceData d)) := by
  have key := resourceKongJWTCredentialUpdate_received d meta 200 body h
  simp at key
  exact ⟨key.2, key.1⟩

/-- State left by a successful consumer call, member by member. -/
theorem setConsumerToResourceData_unmarshal (d : ResourceData) (body : JSONObject) :
    (setConsumerToResourceData d (Consumer.unmarshal body {})).Id = (body.get "id").getD "" ∧
    (setConsumerToResourceData d (Consumer.unmarshal body {})).Get "username"
      = (body.get "username").getD "" ∧
    (setConsumerToResourceData d (Consumer.unmarshal body {})).Get "custom_id"
      = (body.get "custom_id").getD "" := by
  rw [setConsumerToResourceData_Id, setConsumerToResourceData_username,
    setConsumerToResourceData_custom_id, Consumer.unmarshal_id_member, Consumer.unmarshal_Username,
    Consumer.unmarshal_CustomID]
  exact ⟨rfl, rfl, rfl⟩

/-- State left by a successful JWT credential call, member by member. -/
theorem setJWTCredentialToResourceData_unmarshal (d : ResourceData) (body : JSONObject) :
    (setJWTCredentialToResourceData d
        (JWTCredential.unmarshal body (getJWTCredentialFromResourceData d))).Id
      = (body.get "id").getD d.Id ∧
    (setJWTCredentialToResourceData d
        (JWTCredential.unmarshal body (getJWTCredentialFromResourceData d))).Get "key"
      = (body.get "key").getD (d.Get "key") ∧
    (setJWTCredentialToResourceData d
        (JWTCredential.unmarshal body (getJWTCredentialFromResourceData d))).Get "algorithm"
      = (body.get "algorithm").getD (d.Get "algorithm") ∧
    (setJWTCredentialToResourceData d
        (JWTCredential.unmarshal body (getJWTCredentialFromResourceData d))).Get "rsa_public_key"
      = (body.get "rsa_public_key").getD (d.Get "rsa_public_key") ∧
    (setJWTCredentialToResourceData d
        (JWTCredential.unmarshal body (getJWTCredentialFromResourceData d))).Get "secret"
      = (body.get "secret").getD (d.Get "secret") ∧
    (setJWTCredentialToResourceData d
        (JWTCredential.unmarshal body (getJWTCredentialFromResourceData d))).Get "consumer"
      = d.Get "consumer" := by
  rw [setJWTCredentialToResourceData_Id, setJWTCredentialToResourceData_key,
    setJWTCredentialToResourceData_algorithm, setJWTCredentialToResourceData_rsa_public_key,
    setJWTCredentialToResourceData_secret, setJWTCredentialToResourceData_consumer,
    JWTCredential.unmarshal_ID, JWTCredential.unmarshal_Key, JWTCredential.unmarshal_Algorithm,
    JWTCredential.unmarshal_RSAPublicKey, JWTCredential.unmarshal_Secret,
    JWTCredential.unmarshal_Consumer]
  exact ⟨rfl, rfl, rfl, rfl, rfl, rfl⟩

/-! ## Identity -/

/-- C6, counterexample. A tracked consumer `u1`: a Read answered 200 with a
body whose id is `u2` succeeds and leaves the identity `u2`, and an Update
answered 200 with a body without id succeeds and leaves the identity empty. -/
theorem identity_immutable_counterexample :
    (tracked "u1" [("username", "alice")]).Id ≠ "" ∧
    (resourceKongConsumerRead (tracked "u1" [("username", "alice")])
        (stub (.received 200 [("id", "u2"), ("username", "alice")]))).error = none ∧
    (resourceKongConsumerRead (tracked "u1" [("username", "alice")])
        (stub (.received 200 [("id", "u2"), ("username", "alice")]))).d.Id
      ≠ (tracked "u1" [("username", "alice")]).Id ∧
    (resourceKongConsumerUpdate (tracked "u1" [("username", "alice")])
        (stub (.received 200 [("username", "alice")]))).error = none ∧
    (resourceKongConsumerUpdate (tracked "u1" [("username", "alice")])
        (stub (.received 200 [("username", "alice")]))).d.Id
      ≠ (tracked "u1" [("username", "alice")]).Id := by
  decide

/-- C6, amended. On a state with non-empty identity, a Read or an Update
answered 200 leaves as identity the `id` the decoder finds in the response
body (`JSONObject.get`: the last member named `id`, in any letter case); when
the body has no such member the consumer identity becomes empty and the JWT
credential identity is kept. Hence, for both kinds, the identity is unchanged
whenever the id found in the body is the identity the state already had. A
Delete leaves the identity unchanged whatever the answer. -/
theorem identity_after_call (d : ResourceData) (meta : Sling) (body : JSONObject)
    (_hid : d.Id ≠ "") :
    (meta (resourceKongConsumerRead d meta).request = .received 200 body →
      (resourceKongConsumerRead d meta).d.Id = (body.get "id").getD "") ∧
    (meta (resourceKongConsumerUpdate d meta).request = .received 200 body →
      (resourceKongConsumerUpdate d meta).d.Id = (body.get "id").getD "") ∧
    (meta (resourceKongJWTCredentialRead d meta).request = .received 200 body →
      (resourceKongJWTCredentialRead d meta).d.Id = (body.get "id").getD d.Id) ∧
    (meta (resourceKongJWTCredentialUpdate d meta).request = .received 200 body →
      (resourceKongJWTCredentialUpdate d meta).d.Id = (body.get "id").getD d.Id) ∧
    (∀ r : Resource, r = resourceKongConsumer ∨ r = resourceKongJWTCredential →
      body.get "id" = some d.Id →
      (meta (r.Read d meta).request = .received 200 body → (r.Read d meta).d.Id = d.Id) ∧
      (meta (r.Update d meta).request = .received 200 body →
        (r.Update d meta).d.Id = d.Id)) ∧
    (resourceKongConsumerDelete d meta).d.Id = d.Id ∧
    (resourceKongJWTCredentialDelete d meta).d.Id = d.Id := by
  have cr : meta (resourceKongConsumerRead d meta).request = .received 200 body →
      (resourceKongConsumerRead d meta).d.Id = (body.get "id").getD "" := fun h => by
    rw [(resourceKongConsumerRead_success d meta body h).2]
    exact (setConsumerToResourceData_unmarshal d body).1
  have cu : meta (resourceKongConsumerUpdate d meta).request = .received 200 body →
      (resourceKongConsumerUpdate d meta).d.Id = (body.get "id").getD "" := fun h => by
    rw [(resourceKongConsumerUpdate_success d meta body h).2]
    exact (setConsumerToResourceData_unmarshal d body).1
  have jr : meta (resourceKongJWTCredentialRead d meta).request = .received 200 body →
      (resourceKongJWTCredentialRead d meta).d.Id = (body.get "id").getD d.Id := fun h => by
    rw [(resourceKongJWTCredentialRead_success d meta body h).2]
    exact (setJWTCredentialToResourceData_unmarshal d body).1
  have ju : meta (resourceKongJWTCredentialUpdate d meta).request = .received 200 body →
      (resourceKongJWTCredentialUpdate d meta).d.Id = (body.get "id").getD d.Id := fun h => by
    rw [(resourceKongJWTCredentialUpdate_success d meta body h).2]
    exact (setJWTCredentialToResourceData_unmarshal d body).1
  refine ⟨cr, cu, jr, ju, ?_, ?_, ?_⟩
  · intro r hr hb
    rcases hr with rfl | rfl
    · exact ⟨fun h => (cr h).trans (by rw [hb]; rfl), fun h => (cu h).trans (by rw [hb]; rfl)⟩
    · exact ⟨fun h => (jr h).trans (by rw [hb]; rfl), fun h => (ju h).trans (by rw [hb]; rfl)⟩
  · rw [resourceKongConsumerDelete_keeps]
  · rw [resourceKongJWTCredentialDelete_keeps]

/-- Witness of C6, amended: a tracked consumer `u1` whose Read and Update are
answered 200 with a body that carries the id `u1`; then a Read answered with a
body where a later member `ID` carries `u9`, which becomes the identity. -/
theorem identity_after_call_witness :
    (tracked "u1" [("username", "alice")]).Id ≠ "" ∧
    (resourceKongConsumerRead (tracked "u1" [("username", "alice")])
        (stub (.received 200 [("id", "u1"), ("username", "bob")]))).d.Id = "u1" ∧
    (resourceKongConsumerUpdate (tracked "u1" [("username", "alice")])
        (stub (.received 200 [("id", "u1"), ("username", "bob")]))).d.Id = "u1" ∧
    (resourceKongJWTCredentialRead (tracked "u1" [("username", "alice")])
        (stub (.received 200 [("id", "u1"), ("username", "bob")]))).d.Id = "u1" ∧
    (resourceKongJWTCredentialUpdate (tracked "u1" [("username", "alice")])
        (stub (.received 200 [("id", "u1"), ("username", "bob")]))).d.Id = "u1" ∧
    (resourceKongConsumerDelete (tracked "u1" [("username", "alice")])
        (stub (.received 200 [("id", "u1"), ("username", "bob")]))).d.Id = "u1" ∧
    (resourceKongConsumerRead (tracked "u1" [("username", "alice")])
        (stub (.received 200 [("id", "u1"), ("ID", "u9")]))).d.Id = "u9" :=
  have w := identity_after_call (tracked "u1" [("username", "alice")])
    (stub (.received 200 [("id", "u1"), ("username", "bob")]))
    [("id", "u1"), ("username", "bob")] (by decide)
  have v := identity_after_call (tracked "u1" [("username", "alice")])
    (stub (.received 200 [("id", "u1"), ("ID", "u9")]))
    [("id", "u1"), ("ID", "u9")] (by decide)
  ⟨by decide,
    ((w.2.2.2.2.1 resourceKongConsumer (Or.inl rfl) (by decide)).1 rfl).trans (by decide),
    (w.2.1 rfl).trans (by decide),
    (w.2.2.1 rfl).trans (by decide),
    ((w.2.2.2.2.1 resourceKongJWTCredential (Or.inr rfl) (by decide)).2 rfl).trans (by decide),
    w.2.2.2.2.2.1.trans (by decide),
    (v.1 rfl).trans (by decide)⟩

/-! ## What a successful call writes -/

/-- C7, counterexample. A JWT credential whose state holds the key `k1`: a
Create answered 201, and a Read answered 200, with a body that has an id but no
`key` member succeed and leave the key `k1` in the state, not the empty
string. -/
theorem jwt_missing_member_counterexample :
    JSONObject.get [("id", "j1")] "key" = none ∧
    (resourceKongJWTCredentialCreate (declared [("key", "k1"), ("consumer", "c1")])
        (stub (.received 201 [("id", "j1")]))).error = none ∧
    (resourceKongJWTCredentialCreate (declared [("key", "k1"), ("consumer", "c1")])
        (stub (.received 201 [("id", "j1")]))).d.Get "key" = "k1" ∧
    (resourceKongJWTCredentialCreate (declared [("key", "k1"), ("consumer", "c1")])
        (stub (.received 201 [("id", "j1")]))).d.Get "key" ≠ "" ∧
    (resourceKongJWTCredentialRead (tracked "j1" [("key", "k1"), ("consumer", "c1")])
        (stub (.received 200 [("id", "j1")]))).error = none ∧
    (resourceKongJWTCredentialRead (tracked "j1" [("key", "k1"), ("consumer", "c1")])
        (stub (.received 200 [("id", "j1")]))).d.Get "key" ≠ "" := by
  decide

/-- C7, amended. On a successful Create (201), Read (200) or Update (200):
the consumer decodes the body into a fresh record, so the identity, `username`
and `custom_id` of the state are the members of the body, empty when missing;
the JWT credential decodes the body into a record filled from the state, so
the identity, `key`, `algorithm`, `rsa_public_key` and `secret` of the state
are the members of the body where the body has them and keep the value they
had before the call where it does not. The member of the body for a field is
the one the decoder finds (`JSONObject.get`: the last member of that name, in
any letter case). -/
theorem success_writes_decoded_record (d : ResourceData) (meta : Sling) (body : JSONObject) :
    (meta (resourceKongConsumerCreate d meta).request = .received 201 body →
      (resourceKongConsumerCreate d meta).error = none ∧
      (resourceKongConsumerCreate d meta).d.Id = (body.get "id").getD "" ∧
      (resourceKongConsumerCreate d meta).d.Get "username" = (body.get "username").getD "" ∧
      (resourceKongConsumerCreate d meta).d.Get "custom_id" = (body.get "custom_id").getD "") ∧
    (meta (resourceKongConsumerRead d meta).request = .received 200 body →
      (resourceKongConsumerRead d meta).error = none ∧
      (resourceKongConsumerRead d meta).d.Id = (body.get "id").getD "" ∧
      (resourceKongConsumerRead d meta).d.Get "username" = (body.get "username").getD "" ∧
      (resourceKongConsumerRead d meta).d.Get "custom_id" = (body.get "custom_id").getD "") ∧
    (meta (resourceKongConsumerUpdate d meta).request = .received 200 body →
      (resourceKongConsumerUpdate d meta).error = none ∧
      (resourceKongConsumerUpdate d meta).d.Id = (body.get "id").getD "" ∧
      (resourceKongConsumerUpdate d meta).d.Get "username" = (body.get "username").getD "" ∧
      (resourceKongConsumerUpdate d meta).d.Get "custom_id" = (body.get "custom_id").getD "") ∧
    (meta (resourceKongJWTCredentialCreate d meta).request = .received 201 body →
      (resourceKongJWTCredentialCreate d meta).error = none ∧
      (resourceKongJWTCredentialCreate d meta).d.Id = (body.get "id").getD d.Id ∧
      (resourceKongJWTCredentialCreate d meta).d.Get "key" = (body.get "key").getD (d.Get "key") ∧
      (resourceKongJWTCredentialCreate d meta).d.Get "algorithm"
        = (body.get "algorithm").getD (d.Get "algorithm") ∧
      (resourceKongJWTCredentialCreate d meta).d.Get "rsa_public_key"
        = (body.get "rsa_public_key").getD (d.Get "rsa_public_key") ∧
      (resourceKongJWTCredentialCreate d meta).d.Get "secret"
        = (body.get "secret").getD (d.Get "secret")) ∧
    (meta (resourceKongJWTCredentialRead d meta).request = .received 200 body →
      (resourceKongJWTCredentialRead d meta).error = none ∧
      (resourceKongJWTCredentialRead d meta).d.Id = (body.get "id").getD d.Id ∧
      (resourceKongJWTCredentialRead d meta).d.Get "key" = (body.get "key").getD (d.Get "key") ∧
      (resourceKongJWTCredentialRead d meta).d.Get "algorithm"
        = (body.get "algorithm").getD (d.Get "algorithm") ∧
      (resourceKongJWTCredentialRead d meta).d.Get "rsa_public_key"
        = (body.get "rsa_public_key").getD (d.Get "rsa_public_key") ∧
      (resourceKongJWTCredentialRead d meta).d.Get "secret"
        = (body.get "secret").getD (d.Get "secret")) ∧
    (meta (resourceKongJWTCredentialUpdate d meta).request = .received 200 body →
      (resourceKongJWTCredentialUpdate d meta).error = none ∧
      (resourceKongJWTCredentialUpdate d meta).d.Id = (body.get "id").getD d.Id ∧
      (resourceKongJWTCredentialUpdate d meta).d.Get "key" = (body.get "key").getD (d.Get "key") ∧
      (resourceKongJWTCredentialUpdate d meta).d.Get "algorithm"
        = (body.get "algorithm").getD (d.Get "algorithm") ∧
      (resourceKongJWTCredentialUpdate d meta).d.Get "rsa_public_key"
        = (body.get "rsa_public_key").getD (d.Get "rsa_public_key") ∧
      (resourceKongJWTCredentialUpdate d meta).d.Get "secret"
        = (body.get "secret").getD (d.Get "secret")) := by
  refine ⟨?_, ?_, ?_, ?_, ?_, ?_⟩
  · intro h
    have hs := resourceKongConsumerCreate_success d meta body h
    rw [hs.1, hs.2]
    exact ⟨rfl, setConsumerToResourceData_unmarshal d body⟩
  · intro h
    have hs := resourceKongConsumerRead_success d meta body h
    rw [hs.1, hs.2]
    exact ⟨rfl, setConsumerToResourceData_unmarshal d body⟩
  · intro h
    have hs := resourceKongConsumerUpdate_success d meta body h
    rw [hs.1, hs.2]
    exact ⟨rfl, setConsumerToResourceData_unmarshal d body⟩
  · intro h
    have hs := resourceKongJWTCredentialCreate_success d meta body h
    have hw := setJWTCredentialToResourceData_unmarshal d body
    rw [hs.1, hs.2]
    exact ⟨rfl, hw.1, hw.2.1, hw.2.2.1, hw.2.2.2.1, hw.2.2.2.2.1⟩
  · intro h
    have hs := resourceKongJWTCredentialRead_success d meta body h
    have hw := setJWTCredentialToResourceData_unmarshal d body
    rw [hs.1, hs.2]
    exact ⟨rfl, hw.1, hw.2.1, hw.2.2.1, hw.2.2.2.1, hw.2.2.2.2.1⟩
  · intro h
    have hs := resourceKongJWTCredentialUpdate_success d meta body h
    have hw := setJWTCredentialToResourceData_unmarshal d body
    rw [hs.1, hs.2]
    exact ⟨rfl, hw.1, hw.2.1, hw.2.2.1, hw.2.2.2.1, hw.2.2.2.2.1⟩

/-- Witness of C7, amended: a consumer Update answered 200 with a body without
username empties the username; a JWT credential Create answered 201 with a
body that has a key but no secret takes the key from the body and keeps the
secret of the state; a JWT credential Read answered 200 with member names in
other letter cases takes id, key and secret from the body. -/
theorem success_writes_decoded_record_witness :
    ((resourceKongConsumerUpdate (tracked "u1" [("username", "alice")])
        (stub (.received 200 [("id", "u1")]))).d.Id = "u1" ∧
      (resourceKongConsumerUpdate (tracked "u1" [("username", "alice")])
        (stub (.received 200 [("id", "u1")]))).d.Get "username" = "") ∧
    ((resourceKongJWTCredentialCreate
        (declared [("key", "k1"), ("secret", "s1"), ("consumer", "c1")])
        (stub (.received 201 [("id", "j1"), ("key", "k9")]))).d.Id = "j1" ∧
      (resourceKongJWTCredentialCreate
        (declared [("key", "k1"), ("secret", "s1"), ("consumer", "c1")])
        (stub (.received 201 [("id", "j1"), ("key", "k9")]))).d.Get "key" = "k9" ∧
      (resourceKongJWTCredentialCreate
        (declared [("key", "k1"), ("secret", "s1"), ("consumer", "c1")])
        (stub (.received 201 [("id", "j1"), ("key", "k9")]))).d.Get "secret" = "s1") ∧
    ((resourceKongJWTCredentialRead (tracked "j1" [("key", "k1"), ("consumer", "c1")])
        (stub (.received 200 [("Id", "j2"), ("KEY", "k2"), ("Secret", "s2")]))).d.Id = "j2" ∧
      (resourceKongJWTCredentialRead (tracked "j1" [("key", "k1"), ("consumer", "c1")])
        (stub (.received 200 [("Id", "j2"), ("KEY", "k2"), ("Secret", "s2")]))).d.Get "key"
        = "k2" ∧
      (resourceKongJWTCredentialRead (tracked "j1" [("key", "k1"), ("consumer", "c1")])
        (stub (.received 200 [("Id", "j2"), ("KEY", "k2"), ("Secret", "s2")]))).d.Get "secret"
        = "s2") :=
  have u := (success_writes_decoded_record (tracked "j1" [("key", "k1"), ("consumer", "c1")])
    (stub (.received 200 [("Id", "j2"), ("KEY", "k2"), ("Secret", "s2")]))
    [("Id", "j2"), ("KEY", "k2"), ("Secret", "s2")]).2.2.2.2.1 rfl
  have w := (success_writes_decoded_record (tracked "u1" [("username", "alice")])
    (stub (.received 200 [("id", "u1")])) [("id", "u1")]).2.2.1 rfl
  have v := (success_writes_decoded_record
    (declared [("key", "k1"), ("secret", "s1"), ("consumer", "c1")])
    (stub (.received 201 [("id", "j1"), ("key", "k9")]))
    [("id", "j1"), ("key", "k9")]).2.2.2.1 rfl
  ⟨⟨w.2.1.trans (by decide), w.2.2.1.trans (by decide)⟩,
    ⟨v.2.1.trans (by decide), v.2.2.1.trans (by decide), v.2.2.2.2.2.trans (by decide)⟩,
    ⟨u.2.1.trans (by decide), u.2.2.1.trans (by decide), u.2.2.2.2.2.trans (by decide)⟩⟩

/-! ## The owner reference of a JWT credential -/

/-- C8. The request body of a JWT credential Create or Update has no `consumer`
member, and after a successful Create (201), Read (200) or Update (200) the
`consumer` attribute of the state is the one it had before the call, whatever
the response body contains. -/
theorem jwt_consumer_outside_body (d : ResourceData) (meta : Sling) (body : JSONObject) :
    (∃ b, (resourceKongJWTCredentialCreate d meta).request.body = some b ∧
      "consumer" ∉ JSONObject.keys b) ∧
    (∃ b, (resourceKongJWTCredentialUpdate d meta).request.body = some b ∧
      "consumer" ∉ JSONObject.keys b) ∧
    (meta (resourceKongJWTCredentialCreate d meta).request = .received 201 body →
      (resourceKongJWTCredentialCreate d meta).d.Get "consumer" = d.Get "consumer") ∧
    (meta (resourceKongJWTCredentialRead d meta).request = .received 200 body →
      (resourceKongJWTCredentialRead d meta).d.Get "consumer" = d.Get "consumer") ∧
    (meta (resourceKongJWTCredentialUpdate d meta).request = .received 200 body →
      (resourceKongJWTCredentialUpdate d meta).d.Get "consumer" = d.Get "consumer") := by
  refine ⟨?_, ?_, ?_, ?_, ?_⟩
  · rw [resourceKongJWTCredentialCreate_request]
    exact ⟨_, rfl, JWTCredential.marshal_keys _⟩
  · rw [resourceKongJWTCredentialUpdate_request]
    exact ⟨_, rfl, JWTCredential.marshal_keys _⟩
  · intro h
    rw [(resourceKongJWTCredentialCreate_success d meta body h).2]
    exact (setJWTCredentialToResourceData_unmarshal d body).2.2.2.2.2
  · intro h
    rw [(resourceKongJWTCredentialRead_success d meta body h).2]
    exact (setJWTCredentialToResourceData_unmarshal d body).2.2.2.2.2
  · intro h
    rw [(resourceKongJWTCredentialUpdate_success d meta body h).2]
    exact (setJWTCredentialToResourceData_unmarshal d body).2.2.2.2.2

/-- Witness of C8: a credential of consumer `c1`; the remote side answers with
a body that has a `consumer` member naming `c2`. The request body is the key
alone and the state keeps `c1`. -/
theorem jwt_consumer_outside_body_witness :
    (resourceKongJWTCredentialCreate (declared [("key", "k1"), ("consumer", "c1")])
        (stub (.received 201 [("id", "j1"), ("key", "k1"), ("consumer", "c2")]))).request.body
      = some [("key", "k1")] ∧
    (resourceKongJWTCredentialCreate (declared [("key", "k1"), ("consumer", "c1")])
        (stub (.received 201 [("id", "j1"), ("key", "k1"), ("consumer", "c2")]))).d.Get
        "consumer" = "c1" ∧
    (resourceKongJWTCredentialRead (tracked "j1" [("key", "k1"), ("consumer", "c1")])
        (stub (.received 200 [("id", "j1"), ("key", "k1"), ("consumer", "c2")]))).d.Get
        "consumer" = "c1" ∧
    (resourceKongJWTCredentialUpdate (tracked "j1" [("key", "k1"), ("consumer", "c1")])
        (stub (.received 200 [("id", "j1"), ("key", "k1"), ("consumer", "c2")]))).d.Get
        "consumer" = "c1" :=
  have w := jwt_consumer_outside_body (declared [("key", "k1"), ("consumer", "c1")])
    (stub (.received 201 [("id", "j1"), ("key", "k1"), ("consumer", "c2")]))
    [("id", "j1"), ("key", "k1"), ("consumer", "c2")]
  have v := jwt_consumer_outside_body (tracked "j1" [("key", "k1"), ("consumer", "c1")])
    (stub (.received 200 [("id", "j1"), ("key", "k1"), ("consumer", "c2")]))
    [("id", "j1"), ("key", "k1"), ("consumer", "c2")]
  ⟨by decide, (w.2.2.1 rfl).trans (by decide), (v.2.2.2.1 rfl).trans (by decide),
    (v.2.2.2.2 rfl).trans (by decide)⟩

/-! ## Create followed by Read -/

/-- C9. For the consumer and for the JWT credential, on a state with empty
identity: when Create is answered 201 with a body and the Read that follows on
the resulting state is answered 200 with the same body, both return `nil` and
the state after Read is the state after Create, identity and attributes. The
two calls may see different clients, `meta` at Create and `meta'` at Read. -/
theorem create_read_round_trip (r : Resource)
    (hr : r = resourceKongConsumer ∨ r = resourceKongJWTCredential)
    (d : ResourceData) (meta meta' : Sling) (body : JSONObject) (_hid : d.Id = "")
    (hc : meta (r.Create d meta).request = .received 201 body)
    (hg : meta' (r.Read (r.Create d meta).d meta').request = .received 200 body) :
    (r.Create d meta).error = none ∧
    (r.Read (r.Create d meta).d meta').error = none ∧
    (r.Read (r.Create d meta).d meta').d = (r.Create d meta).d := by
  rcases hr with rfl | rfl
  · have c := resourceKongConsumerCreate_success d meta body hc
    have g := resourceKongConsumerRead_success (resourceKongConsumerCreate d meta).d meta'
      body hg
    refine ⟨c.1, g.1, ?_⟩
    show (resourceKongConsumerRead (resourceKongConsumerCreate d meta).d meta').d
      = (resourceKongConsumerCreate d meta).d
    rw [g.2, c.2, setConsumerToResourceData_twice]
  · have c := resourceKongJWTCredentialCreate_success d meta body hc
    have g := resourceKongJWTCredentialRead_success
      (resourceKongJWTCredentialCreate d meta).d meta' body hg
    refine ⟨c.1, g.1, ?_⟩
    show (resourceKongJWTCredentialRead (resourceKongJWTCredentialCreate d meta).d meta').d
      = (resourceKongJWTCredentialCreate d meta).d
    rw [g.2, c.2, getJWTCredentialFromResourceData_set, JWTCredential.unmarshal_idem,
      setJWTCredentialToResourceData_twice]

/-- Witness of C9: a JWT credential declared with a key and a secret, created
and read back against a remote side that returns the id and the key only. -/
theorem create_read_round_trip_witness :
    (declared [("key", "k1"), ("secret", "s1"), ("consumer", "c1")]).Id = "" ∧
    (resourceKongJWTCredential.Read
        (resourceKongJWTCredential.Create
          (declared [("key", "k1"), ("secret", "s1"), ("consumer", "c1")])
          (stub (.received 201 [("id", "j1"), ("key", "k1")]))).d
        (stub (.received 200 [("id", "j1"), ("key", "k1")]))).d
      = (resourceKongJWTCredential.Create
          (declared [("key", "k1"), ("secret", "s1"), ("consumer", "c1")])
          (stub (.received 201 [("id", "j1"), ("key", "k1")]))).d ∧
    (resourceKongJWTCredential.Read
        (resourceKongJWTCredential.Create
          (declared [("key", "k1"), ("secret", "s1"), ("consumer", "c1")])
          (stub (.received 201 [("id", "j1"), ("key", "k1")]))).d
        (stub (.received 200 [("id", "j1"), ("key", "k1")]))).d.Id = "j1" :=
  have w := create_read_round_trip resourceKongJWTCredential (Or.inr rfl)
    (declared [("key", "k1"), ("secret", "s1"), ("consumer", "c1")])
    (stub (.received 201 [("id", "j1"), ("key", "k1")]))
    (stub (.received 200 [("id", "j1"), ("key", "k1")]))
    [("id", "j1"), ("key", "k1")] rfl rfl rfl
  ⟨rfl, w.2.2, by decide⟩

/-! ## Messages of a failed call -/

/-- C10, evaluated on the code. With a client whose call fails, Create, Update
and Delete of a consumer report creating, updating and deleting, while Read
reports updating, the message Update returns; the same holds for the JWT
credential. -/
theorem transport_failure_messages_evaluated :
    (resourceKongConsumerCreate (tracked "u1" [("username", "alice")]) (stub .failure)).error
      = some (.Errorf "Error while creating consumer.") ∧
    (resourceKongConsumerRead (tracked "u1" [("username", "alice")]) (stub .failure)).error
      = some (.Errorf "Error while updating consumer.") ∧
    (resourceKongConsumerUpdate (tracked "u1" [("username", "alice")]) (stub .failure)).error
      = some (.Errorf "Error while updating consumer.") ∧
    (resourceKongConsumerDelete (tracked "u1" [("username", "alice")]) (stub .failure)).error
      = some (.Errorf "Error while deleting consumer.") ∧
    (resourceKongJWTCredentialCreate (tracked "j1" [("key", "k1"), ("consumer", "c1")])
        (stub .failure)).error
      = some (.Errorf "Error while creating jwtCredential.") ∧
    (resourceKongJWTCredentialRead (tracked "j1" [("key", "k1"), ("consumer", "c1")])
        (stub .failure)).error
      = some (.Errorf "Error while updating jwtCredential.") ∧
    (resourceKongJWTCredentialUpdate (tracked "j1" [("key", "k1"), ("consumer", "c1")])
        (stub .failure)).error
      = some (.Errorf "Error while updating jwtCredential.") ∧
    (resourceKongJWTCredentialDelete (tracked "j1" [("key", "k1"), ("consumer", "c1")])
        (stub .failure)).error
      = some (.Errorf "Error while deleting jwtCredential.") := by
  decide

end Kong
